import Mathlib

/-!
Verification development for the Tandem (bughouse-style) chess server.

The repository's engine lives in `src/game_server/tandem_game.rs` and
`src/game_server/chess_game.rs` (the current generation of the engine; the
file `src/game_server/game_server.rs` contains an older copy of the same
structures without the `valid` flag, `last_move` metadata and with `min`
instead of `max` in the mate heuristic).  The definitions below are a direct
shallow embedding of the current generation: `ChessGame`, `TandemGame`,
`move_piece`, `set_piece_on_board`, `is_mate`, the serializers, and the
clock bookkeeping.

The single-board chess rule library (the Rust `chess` crate) is an external
collaborator ("chess oracle", spec section 6).  It is modelled by the
abstract `Board` type: a bundle of the observation and transform functions
the engine actually calls (`side_to_move`, `piece_on`, `color_on`,
`king_square`, `status`, `legal`, `make_move_new`, `null_move`,
`clear_square`, and the BoardBuilder place-piece-and-flip-turn sequence used
by `set_piece_on_board`).  Concrete `Board` values used in witnesses are
built so that every oracle answer consulted along the exercised path agrees
with real chess.

Wall-clock time (`Utc::now().timestamp_millis()`) is passed explicitly as a
`now : Int` argument to the operations that read it.
-/

/-- Piece kinds of the chess crate. -/
inductive Piece where
  | Pawn | Knight | Bishop | Rook | Queen | King
deriving DecidableEq, Repr

/-- Side colors. -/
inductive Color where
  | White | Black
deriving DecidableEq, Repr

/-- The `match color { White => Black, _ => White }` pattern used throughout. -/
def Color.flip : Color → Color
  | .White => .Black
  | .Black => .White

/-- Board status of the chess crate (`BoardStatus`). -/
inductive BoardStatus where
  | Ongoing | Stalemate | Checkmate
deriving DecidableEq, Repr

/-- A chess square; `file` 0..7 stands for a..h, `rank` 0..7 stands for 1..8
(the crate's `get_file` / `get_rank` indices). -/
structure Square where
  file : Nat
  rank : Nat
deriving DecidableEq, Repr

/-- Rust `Square::from_string`: a two character algebraic name, file a..h then
rank 1..8; anything else is rejected. -/
def Square.fromString (s : String) : Option Square :=
  match s.toList with
  | [f, r] =>
    if 'a' ≤ f ∧ f ≤ 'h' ∧ '1' ≤ r ∧ r ≤ '8' then
      some ⟨f.toNat - 'a'.toNat, r.toNat - '1'.toNat⟩
    else none
  | _ => none

/-- Rust `ChessMove::new(source, target, promotion)`. -/
structure ChessMove where
  source : Square
  target : Square
  promotion : Option Piece
deriving DecidableEq, Repr

/-- The chess oracle: an opaque board value together with every observation
and transform the engine calls on it.  `dead` is a canonical inert board
value (all observations fixed) used as the base of the inductive type;
`placePiece p c sq` models the `BoardBuilder::from(board)` /
`.piece(sq, p, c)` / `.side_to_move(opposite of c)` / `Board::try_from`
sequence of `set_piece_on_board`, returning `none` when the resulting
position is invalid. -/
inductive Board where
  | dead
  | mk (sideToMove : Color)
       (pieceOn : Square → Option Piece)
       (colorOn : Square → Option Color)
       (kingSquare : Color → Square)
       (status : BoardStatus)
       (fenString : String)
       (legal : ChessMove → Bool)
       (makeMoveNew : ChessMove → Board)
       (nullMove : Option Board)
       (clearSquare : Square → Option Board)
       (placePiece : Piece → Color → Square → Option Board)

/-- Rust `Board::side_to_move`. -/
def Board.side_to_move : Board → Color
  | .dead => .White
  | .mk s _ _ _ _ _ _ _ _ _ _ => s

/-- Rust `Board::piece_on`. -/
def Board.piece_on : Board → Square → Option Piece
  | .dead, _ => none
  | .mk _ p _ _ _ _ _ _ _ _ _, sq => p sq

/-- Rust `Board::color_on`. -/
def Board.color_on : Board → Square → Option Color
  | .dead, _ => none
  | .mk _ _ c _ _ _ _ _ _ _ _, sq => c sq

/-- Rust `Board::king_square`. -/
def Board.king_square : Board → Color → Square
  | .dead, _ => ⟨0, 0⟩
  | .mk _ _ _ k _ _ _ _ _ _ _, c => k c

/-- Rust `Board::status`. -/
def Board.status : Board → BoardStatus
  | .dead => .Ongoing
  | .mk _ _ _ _ st _ _ _ _ _ _ => st

/-- Rust `Board::to_string` (the FEN serialization). -/
def Board.fen : Board → String
  | .dead => ""
  | .mk _ _ _ _ _ f _ _ _ _ _ => f

/-- Rust `Board::legal`. -/
def Board.legal : Board → ChessMove → Bool
  | .dead, _ => false
  | .mk _ _ _ _ _ _ l _ _ _ _, m => l m

/-- Rust `Board::make_move_new`. -/
def Board.make_move_new : Board → ChessMove → Board
  | .dead, _ => .dead
  | .mk _ _ _ _ _ _ _ mv _ _ _, m => mv m

/-- Rust `Board::null_move`. -/
def Board.null_move : Board → Option Board
  | .dead => none
  | .mk _ _ _ _ _ _ _ _ n _ _ => n

/-- Rust `Board::clear_square`. -/
def Board.clear_square : Board → Square → Option Board
  | .dead, _ => none
  | .mk _ _ _ _ _ _ _ _ _ c _, sq => c sq

/-- The BoardBuilder place-and-flip-turn transform used by
`set_piece_on_board`. -/
def Board.placePiece : Board → Piece → Color → Square → Option Board
  | .dead, _, _, _ => none
  | .mk _ _ _ _ _ _ _ _ _ _ pl, p, c, sq => pl p c sq

/-- Index of a piece kind in the spare arrays: {Queen, Rook, Bishop, Knight,
Pawn}; Kings have no slot (the `_ => return` arm). -/
def slotIdx : Piece → Option Nat
  | .Queen => some 0
  | .Rook => some 1
  | .Bishop => some 2
  | .Knight => some 3
  | .Pawn => some 4
  | .King => none

/-- Rust `sp_array[i] += 1` on a five-slot inventory. -/
def listInc (l : List Int) (i : Nat) : List Int :=
  l.set i (l.getD i 0 + 1)

/-- Rust `sp_array[i] -= 1` on a five-slot inventory. -/
def listDec (l : List Int) (i : Nat) : List Int :=
  l.set i (l.getD i 0 - 1)

/-- Rust `static FIVE_MINUTES: i64 = 5 * 60 * 1000`. -/
def FIVE_MINUTES : Int := 5 * 60 * 1000

/-- Rust `ChessGame` of `chess_game.rs`. -/
structure ChessGame where
  board : Board
  white_sp : List Int
  black_sp : List Int
  white_time : Int
  black_time : Int
  turn : Color
  last_move_capture : Bool
  last_time_sum : Int
  last_move : String

/-- Rust `ChessGame::new()`; the default (standard opening) board of the oracle is
passed explicitly. -/
def ChessGame.new (defaultBoard : Board) : ChessGame where
  board := defaultBoard
  white_sp := [0, 0, 0, 0, 0]
  black_sp := [0, 0, 0, 0, 0]
  white_time := FIVE_MINUTES
  black_time := FIVE_MINUTES
  turn := .White
  last_move_capture := false
  last_time_sum := 0
  last_move := ""

/-- Rust `ChessGame::last_move_capture`. -/
def ChessGame.lastMoveCapture (g : ChessGame) (capture : Bool) : ChessGame :=
  { g with last_move_capture := capture }

/-- Rust `ChessGame::flagged`. -/
def ChessGame.flagged (g : ChessGame) : Bool :=
  g.white_time == 0 || g.black_time == 0

/-- Rust `ChessGame::should_update`: store the new ceiling-seconds sum and report
whether it changed. -/
def ChessGame.should_update (g : ChessGame) : Bool × ChessGame :=
  let old_time_sum := g.last_time_sum
  let new_time_sum := (g.white_time + 999) / 1000 + (g.black_time + 999) / 1000
  (old_time_sum != new_time_sum, { g with last_time_sum := new_time_sum })

/-- Rust `ChessGame::synchronize_time(time_diff)`. -/
def ChessGame.synchronize_time (g : ChessGame) (time_diff : Int) : ChessGame :=
  let g :=
    match g.turn with
    | .White => { g with white_time := g.white_time - time_diff }
    | .Black => { g with black_time := g.black_time - time_diff }
  { g with white_time := max g.white_time 0, black_time := max g.black_time 0 }

/-- Rust `ChessGame::change_turn(chess_move)`. -/
def ChessGame.change_turn (g : ChessGame) (chess_move : String) : ChessGame :=
  let g := { g with turn := g.turn.flip, last_move := chess_move }
  (g.should_update).2

/-- Rust `ChessGame::add_piece(color, piece)`: a capture by `color` feeds the
spare inventory of the opposite color (the partner side). -/
def ChessGame.add_piece (g : ChessGame) (color : Color) (piece : Piece) : ChessGame :=
  match slotIdx piece with
  | none => g
  | some i =>
    match color with
    | .Black => { g with white_sp := listInc g.white_sp i }
    | .White => { g with black_sp := listInc g.black_sp i }

/-- Rust `ChessGame::add_pawn(color)`: a consumed cross-board promotion returns a
pawn to `color`'s own inventory. -/
def ChessGame.add_pawn (g : ChessGame) (color : Color) : ChessGame :=
  match color with
  | .White => { g with white_sp := listInc g.white_sp 4 }
  | .Black => { g with black_sp := listInc g.black_sp 4 }

/-- Rust `ChessGame::decrease_count(color, piece)`. -/
def ChessGame.decrease_count (g : ChessGame) (color : Color) (piece : Piece) :
    Bool × ChessGame :=
  match slotIdx piece with
  | none => (false, g)
  | some i =>
    match color with
    | .White =>
      if g.white_sp.getD i 0 ≤ 0 then (false, g)
      else (true, { g with white_sp := listDec g.white_sp i })
    | .Black =>
      if g.black_sp.getD i 0 ≤ 0 then (false, g)
      else (true, { g with black_sp := listDec g.black_sp i })

example : Square.fromString "e2" = some ⟨4, 1⟩ := by decide
example : Square.fromString "spare" = none := by decide
example : ("spare" = "e2") = False := by simp

/-- Rust `is_mate` of `tandem_game.rs` (lines 313-328): the heuristic filter on
oracle checkmates; `close_chess` is the Chebyshev-distance test
`max(|king_x - target_x|, |king_y - target_y|) <= 1` between the moved or
dropped piece's destination and the enemy king. -/
def is_mate (board : Board) (piece : Piece) (target : Square) (color : Color) : Bool :=
  let target_x : Int := target.rank
  let target_y : Int := target.file
  let square_king := board.king_square color.flip
  let king_x : Int := square_king.rank
  let king_y : Int := square_king.file
  let close_chess : Bool := decide (max (king_x - target_x).natAbs ((king_y - target_y).natAbs) ≤ 1)
  decide (board.status = BoardStatus.Checkmate) && (close_chess || decide (piece = Piece.Knight))

/-- Rust `set_piece_on_board` of `tandem_game.rs` (lines 286-311): refuse pawns on
the first or eighth rank, build the position with the piece placed and the
turn handed to the opponent, and refuse it when `is_mate` fires. -/
def set_piece_on_board (board : Board) (piece : Piece) (color : Color) (target : Square) :
    Option Board :=
  let target_x : Int := target.rank
  if (target_x = 7 ∨ target_x = 0) ∧ piece = Piece.Pawn then none
  else
    match board.placePiece piece color target with
    | none => none
    | some new_board =>
      if is_mate new_board piece target color then none else some new_board

/-- Rust `TandemMove` descriptor. -/
structure TandemMove where
  board : Nat
  color : Color
  source : String
  target : String
  piece : String
  promotion : String

/-- Rust `'w' => White, 'b' => Black, _ => reject` on the first drop-spec char. -/
def charColor : Char → Option Color
  | 'w' => some .White
  | 'b' => some .Black
  | _ => none

/-- Rust `'P' | 'N' | 'B' | 'R' | 'Q' => kind, _ => reject` on the second
drop-spec char. -/
def charPiece : Char → Option Piece
  | 'P' => some .Pawn
  | 'N' => some .Knight
  | 'B' => some .Bishop
  | 'R' => some .Rook
  | 'Q' => some .Queen
  | _ => none

/-- Rust `TandemGame` of `tandem_game.rs`; `games[0]` and `games[1]` are the two
fields `g0` and `g1`. -/
structure TandemGame where
  g0 : ChessGame
  g1 : ChessGame
  started : Bool
  finished : Bool
  last_sync : Int

/-- Rust `games[i]` for `i` in {0, 1}. -/
def TandemGame.game (t : TandemGame) (i : Nat) : ChessGame :=
  if i = 0 then t.g0 else t.g1

/-- Rust `games[i] = g` for `i` in {0, 1}. -/
def TandemGame.setGame (t : TandemGame) (i : Nat) (g : ChessGame) : TandemGame :=
  if i = 0 then { t with g0 := g } else { t with g1 := g }

/-- Rust `TandemGame::new()`. -/
def TandemGame.new (defaultBoard : Board) : TandemGame where
  g0 := ChessGame.new defaultBoard
  g1 := ChessGame.new defaultBoard
  started := false
  finished := false
  last_sync := 0

/-- Rust `TandemGame::reset()`. -/
def TandemGame.reset (_t : TandemGame) (defaultBoard : Board) : TandemGame :=
  TandemGame.new defaultBoard

/-- Rust `TandemGame::synchronize_time()`; `now` is
`Utc::now().timestamp_millis()`. -/
def TandemGame.synchronize_time (t : TandemGame) (now : Int) : TandemGame :=
  if !t.started then t
  else
    let ls := if t.last_sync = 0 then now else t.last_sync
    let time_dif := max (now - ls) 0
    let g0 := t.g0.synchronize_time time_dif
    let g1 := t.g1.synchronize_time time_dif
    { t with g0 := g0, g1 := g1, last_sync := now,
             finished := t.finished || g0.flagged || g1.flagged }

/-- Rust `TandemGame::should_update()`: finished games never update; otherwise
synchronize, then `games[0].should_update() || games[1].should_update()`
with Rust's short-circuit (the second board is not consulted when the first
reports a change). -/
def TandemGame.should_update (t : TandemGame) (now : Int) : Bool × TandemGame :=
  if t.finished then (false, t)
  else
    let t := t.synchronize_time now
    let r0 := t.g0.should_update
    if r0.1 then (true, { t with g0 := r0.2 })
    else
      let r1 := (r0.2, t.g1.should_update)
      (r1.2.1, { t with g0 := r1.1, g1 := r1.2.2 })

/-- The commit tail of an accepted drop (`tandem_game.rs` lines 194-202):
install the new board, flip the turn recording `"spare-<target>"`, mark the
game started. -/
def TandemGame.dropCommit (t : TandemGame) (m : TandemMove) (bInd : Nat)
    (board_new : Board) (gb : ChessGame) : Bool × TandemGame :=
  let gb := { gb with board := board_new }
  let gb := gb.change_turn (m.source ++ "-" ++ m.target)
  (true, { t.setGame bInd gb with started := true })

/-- The commit tail of an accepted normal move (`tandem_game.rs` lines
265-282): capture bookkeeping (spares to the other board, the
last-move-capture flag), turn flip, board commit, and the `is_mate` finish
latch. -/
def TandemGame.normalCommit (t2 : TandemGame) (m : TandemMove) (bInd oInd : Nat)
    (board : Board) (target : Square) (piece_source : Piece)
    (chess_move : ChessMove) : Bool × TandemGame :=
  let t3 :=
    match board.piece_on target with
    | some v =>
      let ta := t2.setGame oInd ((t2.game oInd).add_piece m.color v)
      ta.setGame bInd ((ta.game bInd).lastMoveCapture true)
    | none => t2.setGame bInd ((t2.game bInd).lastMoveCapture false)
  let gb := (t3.game bInd).change_turn (m.source ++ "-" ++ m.target)
  let gb := { gb with board := board.make_move_new chess_move }
  let t4 := t3.setGame bInd gb
  let t5 :=
    if is_mate gb.board piece_source target m.color then
      { t4 with finished := true }
    else t4
  (true, { t5 with started := true })

/-- The drop branch of `TandemGame::move_piece` (`tandem_move.source ==
"spare"`, lines 155-203), entered after the shared preconditions; `t` is the
already synchronized state, `board` the moving board, `target` the parsed
target square. -/
def TandemGame.dropMove (t : TandemGame) (m : TandemMove) (bInd : Nat)
    (board : Board) (target : Square) : Bool × TandemGame :=
  if (board.piece_on target).isSome then (false, t)
  else
    match m.piece.toList with
    | [c0, c1] =>
      (match charColor c0 with
       | none => (false, t)
       | some color =>
         match charPiece c1 with
         | none => (false, t)
         | some piece =>
           if piece = Piece.Pawn ∧ (target.rank = 0 ∨ target.rank = 7) then (false, t)
           else
             match set_piece_on_board board piece color target with
             | none => (false, t)
             | some board_new =>
               match (t.game bInd).decrease_count color piece with
               | (false, _) => (false, t)
               | (true, gb) => t.dropCommit m bInd board_new gb)
    | _ => (false, t)

/-- The normal-move branch of `TandemGame::move_piece` (lines 205-282):
source parsing, the cross-board promotion probe and commit, capture
bookkeeping, move commit, and the `is_mate` finish latch. -/
def TandemGame.normalMove (t : TandemGame) (m : TandemMove) (bInd oInd : Nat)
    (board otherBoard : Board) (target : Square) : Bool × TandemGame :=
  match Square.fromString m.source with
  | none => (false, t)
  | some source =>
    match board.piece_on source with
    | none => (false, t)
    | some piece_source =>
      let rank := target.rank
      let is_promotion := piece_source = Piece.Pawn ∧ (rank = 0 ∨ rank = 7)
      let promotion_target_op := Square.fromString m.promotion
      let promoProbe : Option (Option Piece) :=
        if is_promotion then
          match promotion_target_op with
          | some v =>
            match otherBoard.color_on v with
            | some c => if c = m.color then some (otherBoard.piece_on v) else none
            | none => none
          | none => some none
        else some none
      match promoProbe with
      | none => (false, t)
      | some promotion_piece_op =>
        let chess_move : ChessMove := ⟨source, target, promotion_piece_op⟩
        if !(board.legal chess_move) then (false, t)
        else
          let promoCommit : Option TandemGame :=
            if is_promotion then
              match promotion_target_op with
              | none => none
              | some promotion_target =>
                match otherBoard.clear_square promotion_target with
                | none => none
                | some board_other =>
                  match board_other.null_move with
                  | none => none
                  | some _ =>
                    some (t.setGame oInd
                      (({ t.game oInd with board := board_other }).add_pawn m.color))
            else some t
          match promoCommit with
          | none => (false, t)
          | some t2 => t2.normalCommit m bInd oInd board target piece_source chess_move

/-- Rust `TandemGame::move_piece` (lines 118-283): synchronize first, then the
shared preconditions (not finished, board index valid, side to move matches
the frame's color, target parses, the target holds no King), then the drop
or the normal branch. -/
def TandemGame.move_piece (t0 : TandemGame) (now : Int) (m : TandemMove) :
    Bool × TandemGame :=
  let t := t0.synchronize_time now
  if t.finished then (false, t)
  else if m.board = 0 then (false, t)
  else
    let bInd := m.board - 1
    let oInd := (bInd + 1) % 2
    let board := (t.game bInd).board
    let otherBoard := (t.game oInd).board
    if board.side_to_move ≠ m.color then (false, t)
    else
      match Square.fromString m.target with
      | none => (false, t)
      | some target =>
        if board.piece_on target = some Piece.King then (false, t)
        else if m.source = "spare" then t.dropMove m bInd board target
        else t.normalMove m bInd oInd board otherBoard target

/-- JSON documents as produced by `serde_json::json!` / `to_string`. -/
inductive Json where
  | null
  | bool (b : Bool)
  | num (n : Int)
  | str (s : String)
  | arr (xs : List Json)
  | obj (fields : List (String × Json))

/-- serde_json string escaping for the characters that can occur in this
program's data (quote, backslash, and the common control characters). -/
def escapeChar (c : Char) : String :=
  if c = '"' then "\\\""
  else if c = '\\' then "\\\\"
  else if c = '\n' then "\\n"
  else if c = '\t' then "\\t"
  else if c = '\r' then "\\r"
  else String.singleton c

/-- Escape a whole string. -/
def escapeString (s : String) : String :=
  String.join (s.toList.map escapeChar)

mutual

/-- Compact rendering of a JSON document (`serde_json::to_string`), object
fields in the order the program inserts them. -/
def Json.render : Json → String
  | .null => "null"
  | .bool true => "true"
  | .bool false => "false"
  | .num n => toString n
  | .str s => "\"" ++ escapeString s ++ "\""
  | .arr xs => "[" ++ Json.renderArr xs ++ "]"
  | .obj fs => "\x7b" ++ Json.renderObj fs ++ "\x7d"

/-- Comma-separated rendering of array elements. -/
def Json.renderArr : List Json → String
  | [] => ""
  | [x] => Json.render x
  | x :: xs => Json.render x ++ "," ++ Json.renderArr xs

/-- Comma-separated rendering of object fields. -/
def Json.renderObj : List (String × Json) → String
  | [] => ""
  | [(k, v)] => "\"" ++ escapeString k ++ "\":" ++ Json.render v
  | (k, v) :: fs => "\"" ++ escapeString k ++ "\":" ++ Json.render v ++ "," ++ Json.renderObj fs

end

/-- Look a field up in a JSON object (`none` on non-objects). -/
def Json.getField : Json → String → Option Json
  | .obj fs, k => fs.lookup k
  | _, _ => none

/-- Rust `format!("{:02}", n)` for the seconds part. -/
def pad2 (n : Int) : String :=
  if n < 10 then "0" ++ toString n else toString n

/-- Rust `format!("{}:{:02}", s / 60, s % 60)`. -/
def formatMinSec (s : Int) : String :=
  toString (s / 60) ++ ":" ++ pad2 (s % 60)

/-- The JSON object built by `ChessGame::to_string` (`chess_game.rs` lines
70-83) before rendering: fen, last_move_capture, spare vectors, both clock
readouts in ceiling seconds, last move. -/
def ChessGame.toJson (g : ChessGame) : Json :=
  let time_white_seconds := (g.white_time + 999) / 1000
  let time_black_seconds := (g.black_time + 999) / 1000
  Json.obj [
    ("fen", .str g.board.fen),
    ("last_move_capture", .bool g.last_move_capture),
    ("white_sp", .arr (g.white_sp.map Json.num)),
    ("black_sp", .arr (g.black_sp.map Json.num)),
    ("white_time", .str (formatMinSec time_white_seconds)),
    ("black_time", .str (formatMinSec time_black_seconds)),
    ("last_move", .str g.last_move)
  ]

/-- Rust `ChessGame::to_string`: the rendered per-board JSON document. -/
def ChessGame.toStringR (g : ChessGame) : String :=
  Json.render g.toJson

/-- The JSON object built by `TandemGame::get_fen(valid)` (`tandem_game.rs`
lines 68-74): the per-board documents are embedded as the *strings* produced
by `ChessGame::to_string`, because `json!` receives an already rendered
`String` value for `board_1` and `board_2`. -/
def TandemGame.getFenJson (t : TandemGame) (valid : Bool) : Json :=
  Json.obj [
    ("valid", .bool valid),
    ("board_1", .str t.g0.toStringR),
    ("board_2", .str t.g1.toStringR)
  ]

/-- Rust `TandemGame::get_fen(valid)`. -/
def TandemGame.get_fen (t : TandemGame) (valid : Bool) : String :=
  Json.render (t.getFenJson valid)

/-- The spare inventory of side `c` in a per-board game. -/
def invOf (g : ChessGame) (c : Color) : List Int :=
  match c with
  | .White => g.white_sp
  | .Black => g.black_sp

/-- Ceiling division by 1000 written the way the specification describes the
clock readout. -/
def specCeilSec (x : Int) : Int :=
  if x % 1000 = 0 then x / 1000 else x / 1000 + 1

/-- The program's `(x + 999) / 1000` readout is exactly ceiling seconds for
the non-negative clock values. -/
theorem add999_div_eq_ceil (x : Int) (_hx : 0 ≤ x) : (x + 999) / 1000 = specCeilSec x := by
  unfold specCeilSec
  omega

/-- Per-board clock synchronization only touches the two clock fields. -/
theorem ChessGame.sync_fields (g : ChessGame) (d : Int) :
    (g.synchronize_time d).board = g.board ∧
    (g.synchronize_time d).white_sp = g.white_sp ∧
    (g.synchronize_time d).black_sp = g.black_sp ∧
    (g.synchronize_time d).turn = g.turn ∧
    (g.synchronize_time d).last_move_capture = g.last_move_capture ∧
    (g.synchronize_time d).last_time_sum = g.last_time_sum ∧
    (g.synchronize_time d).last_move = g.last_move := by
  unfold ChessGame.synchronize_time
  cases g.turn <;> simp

/-- Tandem clock synchronization never clears the finished latch. -/
theorem TandemGame.sync_finished_latch (t : TandemGame) (now : Int)
    (h : t.finished = true) : (t.synchronize_time now).finished = true := by
  unfold TandemGame.synchronize_time
  split
  · exact h
  · simp [h]

/-- Tandem clock synchronization leaves `started` unchanged. -/
theorem TandemGame.sync_started (t : TandemGame) (now : Int) :
    (t.synchronize_time now).started = t.started := by
  unfold TandemGame.synchronize_time
  split <;> simp

/-- Tandem clock synchronization leaves both boards, both pairs of spare
inventories, both turn markers and both last-move records unchanged. -/
theorem TandemGame.sync_game_fields (t : TandemGame) (now : Int) (i : Nat) :
    ((t.synchronize_time now).game i).board = (t.game i).board ∧
    ((t.synchronize_time now).game i).white_sp = (t.game i).white_sp ∧
    ((t.synchronize_time now).game i).black_sp = (t.game i).black_sp ∧
    ((t.synchronize_time now).game i).turn = (t.game i).turn ∧
    ((t.synchronize_time now).game i).last_move_capture = (t.game i).last_move_capture ∧
    ((t.synchronize_time now).game i).last_time_sum = (t.game i).last_time_sum ∧
    ((t.synchronize_time now).game i).last_move = (t.game i).last_move := by
  unfold TandemGame.synchronize_time TandemGame.game
  by_cases hs : t.started = false
  · simp [hs]
  · by_cases hi : i = 0 <;> simp [hs, hi, ChessGame.sync_fields]

/-- Every branch of the drop handler either accepts or returns the state it
was given. -/
theorem TandemGame.dropMove_shape (t : TandemGame) (m : TandemMove) (bInd : Nat)
    (board : Board) (target : Square) :
    (t.dropMove m bInd board target).1 = true ∨
    (t.dropMove m bInd board target).2 = t := by
  unfold TandemGame.dropMove
  repeat' split
  all_goals first
    | exact Or.inl rfl
    | exact Or.inr rfl

/-- A drop attempt that is rejected leaves the (already synchronized) state
untouched: every `return false` in the drop branch happens before any write. -/
theorem TandemGame.dropMove_false (t : TandemGame) (m : TandemMove) (bInd : Nat)
    (board : Board) (target : Square)
    (h : (t.dropMove m bInd board target).1 = false) :
    (t.dropMove m bInd board target).2 = t := by
  rcases TandemGame.dropMove_shape t m bInd board target with h1 | h1
  · rw [h1] at h; cases h
  · exact h1

/-- Every branch of the normal-move handler either accepts or returns the
state it was given. -/
theorem TandemGame.normalMove_shape (t : TandemGame) (m : TandemMove)
    (bInd oInd : Nat) (board otherBoard : Board) (target : Square) :
    (t.normalMove m bInd oInd board otherBoard target).1 = true ∨
    (t.normalMove m bInd oInd board otherBoard target).2 = t := by
  simp only [TandemGame.normalMove]
  repeat' split
  all_goals first
    | exact Or.inl rfl
    | exact Or.inr rfl

/-- A normal move that is rejected leaves the (already synchronized) state
untouched. -/
theorem TandemGame.normalMove_false (t : TandemGame) (m : TandemMove)
    (bInd oInd : Nat) (board otherBoard : Board) (target : Square)
    (h : (t.normalMove m bInd oInd board otherBoard target).1 = false) :
    (t.normalMove m bInd oInd board otherBoard target).2 = t := by
  rcases TandemGame.normalMove_shape t m bInd oInd board otherBoard target with h1 | h1
  · rw [h1] at h; cases h
  · exact h1

/-- Every branch of `move_piece` either accepts or exits with exactly the
state produced by the entry call to `synchronize_time`. -/
theorem TandemGame.move_piece_shape (t0 : TandemGame) (now : Int) (m : TandemMove) :
    (t0.move_piece now m).1 = true ∨
    (t0.move_piece now m).2 = t0.synchronize_time now := by
  simp only [TandemGame.move_piece]
  repeat' split
  all_goals first
    | exact Or.inr rfl
    | exact TandemGame.dropMove_shape _ m _ _ _
    | exact TandemGame.normalMove_shape _ m _ _ _ _ _

/-- Every rejection of `move_piece` exits with exactly the state produced by
the entry call to `synchronize_time`; no other field is written. -/
theorem TandemGame.move_piece_false (t0 : TandemGame) (now : Int) (m : TandemMove)
    (h : (t0.move_piece now m).1 = false) :
    (t0.move_piece now m).2 = t0.synchronize_time now := by
  rcases TandemGame.move_piece_shape t0 now m with h1 | h1
  · rw [h1] at h; cases h
  · exact h1

/-- Reading back the slot just written by `setGame`. -/
theorem TandemGame.game_setGame_same (t : TandemGame) (i : Nat) (g : ChessGame)
    (hi : i = 0 ∨ i = 1) : (t.setGame i g).game i = g := by
  rcases hi with hi | hi <;> simp [hi, TandemGame.game, TandemGame.setGame]

/-- Writing one slot leaves the other slot unchanged. -/
theorem TandemGame.game_setGame_other (t : TandemGame) (g : ChessGame)
    (i j : Nat) (hij : i = 0 ∧ j = 1 ∨ i = 1 ∧ j = 0) :
    (t.setGame i g).game j = t.game j := by
  rcases hij with ⟨hi, hj⟩ | ⟨hi, hj⟩ <;>
    simp [hi, hj, TandemGame.game, TandemGame.setGame]

/-- Rust `setGame` only touches the two game slots. -/
theorem TandemGame.setGame_meta (t : TandemGame) (i : Nat) (g : ChessGame) :
    (t.setGame i g).started = t.started ∧
    (t.setGame i g).finished = t.finished ∧
    (t.setGame i g).last_sync = t.last_sync := by
  unfold TandemGame.setGame
  split <;> simp

/-- Rust `add_piece color piece` adds one spare of the piece's kind to the side
*opposite* the capturing color and leaves the capturing color's inventory
(and every non-inventory field) unchanged. -/
theorem ChessGame.add_piece_spec (g : ChessGame) (c : Color) (p : Piece) (i : Nat)
    (hi : slotIdx p = some i) :
    invOf (g.add_piece c p) c.flip = listInc (invOf g c.flip) i ∧
    invOf (g.add_piece c p) c = invOf g c := by
  cases c <;> simp [ChessGame.add_piece, hi, invOf, Color.flip]

/-- Rust `add_pawn color` adds one pawn spare to the color's own inventory and
leaves the opposite inventory unchanged. -/
theorem ChessGame.add_pawn_spec (g : ChessGame) (c : Color) :
    invOf (g.add_pawn c) c = listInc (invOf g c) 4 ∧
    invOf (g.add_pawn c) c.flip = invOf g c.flip := by
  cases c <;> simp [ChessGame.add_pawn, invOf, Color.flip]

/-- Rust `change_turn` flips the turn, records the move string, refreshes
`last_time_sum`, and changes nothing else. -/
theorem ChessGame.change_turn_spec (g : ChessGame) (mv : String) :
    (g.change_turn mv).board = g.board ∧
    (g.change_turn mv).white_sp = g.white_sp ∧
    (g.change_turn mv).black_sp = g.black_sp ∧
    (g.change_turn mv).white_time = g.white_time ∧
    (g.change_turn mv).black_time = g.black_time ∧
    (g.change_turn mv).turn = g.turn.flip ∧
    (g.change_turn mv).last_move_capture = g.last_move_capture ∧
    (g.change_turn mv).last_move = mv ∧
    (g.change_turn mv).last_time_sum =
      (g.white_time + 999) / 1000 + (g.black_time + 999) / 1000 := by
  simp [ChessGame.change_turn, ChessGame.should_update]

/-- Rust `last_move_capture` setter changes only its own field. -/
theorem ChessGame.lastMoveCapture_spec (g : ChessGame) (b : Bool) :
    (g.lastMoveCapture b).board = g.board ∧
    (g.lastMoveCapture b).white_sp = g.white_sp ∧
    (g.lastMoveCapture b).black_sp = g.black_sp ∧
    (g.lastMoveCapture b).turn = g.turn ∧
    (g.lastMoveCapture b).last_move_capture = b := by
  simp [ChessGame.lastMoveCapture]

/-- Rust `decrease_count` on an exhausted slot fails and mutates nothing. -/
theorem ChessGame.decrease_count_zero (g : ChessGame) (c : Color) (p : Piece) (i : Nat)
    (hi : slotIdx p = some i) (hz : (invOf g c).getD i 0 ≤ 0) :
    g.decrease_count c p = (false, g) := by
  cases c <;> simp_all [ChessGame.decrease_count, invOf]

/-- Rust `decrease_count` on a positive slot succeeds and removes exactly one
spare of that kind from that color's inventory, touching nothing else. -/
theorem ChessGame.decrease_count_pos (g : ChessGame) (c : Color) (p : Piece) (i : Nat)
    (hi : slotIdx p = some i) (hz : 0 < (invOf g c).getD i 0) :
    (g.decrease_count c p).1 = true ∧
    invOf (g.decrease_count c p).2 c = listDec (invOf g c) i ∧
    invOf (g.decrease_count c p).2 c.flip = invOf g c.flip ∧
    (g.decrease_count c p).2.board = g.board ∧
    (g.decrease_count c p).2.turn = g.turn ∧
    (g.decrease_count c p).2.white_time = g.white_time ∧
    (g.decrease_count c p).2.black_time = g.black_time ∧
    (g.decrease_count c p).2.last_move_capture = g.last_move_capture ∧
    (g.decrease_count c p).2.last_time_sum = g.last_time_sum ∧
    (g.decrease_count c p).2.last_move = g.last_move := by
  cases c with
  | White =>
    simp only [invOf] at hz
    simp only [ChessGame.decrease_count, hi, invOf, Color.flip]
    rw [if_neg (by omega)]
    simp
  | Black =>
    simp only [invOf] at hz
    simp only [ChessGame.decrease_count, hi, invOf, Color.flip]
    rw [if_neg (by omega)]
    simp

/-- Chebyshev adjacency between two squares, the geometric reading of the
`close_chess` test. -/
def chebAdj (k t : Square) : Prop :=
  max ((k.rank : Int) - t.rank).natAbs ((k.file : Int) - t.file).natAbs ≤ 1

instance (k t : Square) : Decidable (chebAdj k t) := by
  unfold chebAdj; infer_instance

/-- Rust `is_mate` spelled through `chebAdj`: an oracle checkmate is latched
exactly when the landing square is Chebyshev-adjacent to the enemy king or
the piece is a Knight. -/
theorem is_mate_eq (board : Board) (p : Piece) (target : Square) (c : Color) :
    is_mate board p target c =
      (decide (board.status = BoardStatus.Checkmate) &&
        (decide (chebAdj (board.king_square c.flip) target) || decide (p = Piece.Knight))) := rfl

/-- A Knight landing in an oracle checkmate always trips `is_mate`. -/
theorem is_mate_knight (board : Board) (target : Square) (c : Color)
    (hst : board.status = BoardStatus.Checkmate) :
    is_mate board Piece.Knight target c = true := by
  simp [is_mate_eq, hst]

/-- A contact (Chebyshev-adjacent) oracle checkmate always trips `is_mate`. -/
theorem is_mate_close (board : Board) (p : Piece) (target : Square) (c : Color)
    (hst : board.status = BoardStatus.Checkmate)
    (hclose : chebAdj (board.king_square c.flip) target) :
    is_mate board p target c = true := by
  simp [is_mate_eq, hst, hclose]

/-- A non-Knight landing away from the enemy king never trips `is_mate`. -/
theorem is_mate_far (board : Board) (p : Piece) (target : Square) (c : Color)
    (hp : p ≠ Piece.Knight)
    (hfar : ¬ chebAdj (board.king_square c.flip) target) :
    is_mate board p target c = false := by
  simp [is_mate_eq, hp, hfar]

/-- Rust `set_piece_on_board` refuses the placement whenever the placed position
trips `is_mate`. -/
theorem set_piece_on_board_none_of_mate (board : Board) (p : Piece) (c : Color)
    (target : Square) (nb : Board)
    (hpl : board.placePiece p c target = some nb)
    (hm : is_mate nb p target c = true) :
    set_piece_on_board board p c target = none := by
  simp only [set_piece_on_board, hpl]
  split
  · rfl
  · simp [hm]

/-- Rust `set_piece_on_board` accepts the placement when the pawn-rank guard does
not fire, the oracle accepts it, and `is_mate` does not fire. -/
theorem set_piece_on_board_some (board : Board) (p : Piece) (c : Color)
    (target : Square) (nb : Board)
    (hguard : ¬(((target.rank : Int) = 7 ∨ (target.rank : Int) = 0) ∧ p = Piece.Pawn))
    (hpl : board.placePiece p c target = some nb)
    (hm : is_mate nb p target c = false) :
    set_piece_on_board board p c target = some nb := by
  simp only [set_piece_on_board, hpl]
  rw [if_neg hguard]
  simp [hm]

/-- Under the shared preconditions, `move_piece` is the entry
synchronization followed by the branch selected on `source == "spare"`. -/
theorem TandemGame.move_piece_run (t0 : TandemGame) (now : Int) (m : TandemMove)
    (target : Square)
    (hb0 : m.board ≠ 0)
    (hf : (t0.synchronize_time now).finished = false)
    (hside : (((t0.synchronize_time now).game (m.board - 1)).board).side_to_move = m.color)
    (htgt : Square.fromString m.target = some target)
    (hking : (((t0.synchronize_time now).game (m.board - 1)).board).piece_on target ≠
      some Piece.King) :
    t0.move_piece now m =
      if m.source = "spare" then
        (t0.synchronize_time now).dropMove m (m.board - 1)
          (((t0.synchronize_time now).game (m.board - 1)).board) target
      else
        (t0.synchronize_time now).normalMove m (m.board - 1) ((m.board - 1 + 1) % 2)
          (((t0.synchronize_time now).game (m.board - 1)).board)
          (((t0.synchronize_time now).game ((m.board - 1 + 1) % 2)).board) target := by
  simp only [TandemGame.move_piece, hf, htgt, hb0, hside]
  simp [hking]

/-- An in-range drop whose placement the variant refuses
(`set_piece_on_board` returned `none`) is rejected. -/
theorem TandemGame.dropMove_reject_of_none (t : TandemGame) (m : TandemMove)
    (bInd : Nat) (board : Board) (target : Square) (c0 c1 : Char) (c : Color) (p : Piece)
    (hlist : m.piece.toList = [c0, c1])
    (hcc : charColor c0 = some c) (hcp : charPiece c1 = some p)
    (hspob : set_piece_on_board board p c target = none) :
    (t.dropMove m bInd board target).1 = false := by
  simp only [TandemGame.dropMove, hlist, hcc, hcp, hspob]
  split
  · rfl
  · split
    · rfl
    · rfl

/-- A drop that passes every guard runs the decrease-then-commit tail. -/
theorem TandemGame.dropMove_run (t : TandemGame) (m : TandemMove) (bInd : Nat)
    (board : Board) (target : Square) (c0 c1 : Char) (c : Color) (p : Piece) (nb : Board)
    (hlist : m.piece.toList = [c0, c1])
    (hcc : charColor c0 = some c) (hcp : charPiece c1 = some p)
    (hempty : board.piece_on target = none)
    (hpawn : ¬(p = Piece.Pawn ∧ (target.rank = 0 ∨ target.rank = 7)))
    (hspob : set_piece_on_board board p c target = some nb) :
    t.dropMove m bInd board target =
      match (t.game bInd).decrease_count c p with
      | (false, _) => (false, t)
      | (true, gb) => t.dropCommit m bInd nb gb := by
  simp only [TandemGame.dropMove, hlist, hcc, hcp, hempty, hspob, Option.isSome_none,
    Bool.false_eq_true, if_false]
  rw [if_neg hpawn]

/-- Incrementing one slot raises exactly that slot by one. -/
theorem listInc_getD_eq (l : List Int) (i : Nat) (h : i < l.length) :
    (listInc l i).getD i 0 = l.getD i 0 + 1 := by
  simp [listInc, List.getD, List.getElem?_set_self, h]

/-- Incrementing one slot leaves every other slot unchanged. -/
theorem listInc_getD_ne (l : List Int) (i j : Nat) (h : j ≠ i) :
    (listInc l i).getD j 0 = l.getD j 0 := by
  simp [listInc, List.getD, List.getElem?_set_ne (fun hh => h hh.symm)]

/-- Decrementing one slot lowers exactly that slot by one. -/
theorem listDec_getD_eq (l : List Int) (i : Nat) (h : i < l.length) :
    (listDec l i).getD i 0 = l.getD i 0 - 1 := by
  simp [listDec, List.getD, List.getElem?_set_self, h]

/-- Decrementing one slot leaves every other slot unchanged. -/
theorem listDec_getD_ne (l : List Int) (i j : Nat) (h : j ≠ i) :
    (listDec l i).getD j 0 = l.getD j 0 := by
  simp [listDec, List.getD, List.getElem?_set_ne (fun hh => h hh.symm)]

/-- Inventories ignore the board field. -/
theorem invOf_board_update (g : ChessGame) (b : Board) (c : Color) :
    invOf { g with board := b } c = invOf g c := by
  cases c <;> rfl

/-- Effect of the accepted-drop commit tail: the result is accepted, the new
board and the decremented per-board game land in slot `bInd`, the other slot
is untouched, and the game is marked started. -/
theorem TandemGame.dropCommit_spec (t : TandemGame) (m : TandemMove) (bInd oInd : Nat)
    (nb : Board) (gb : ChessGame)
    (hio : bInd = 0 ∧ oInd = 1 ∨ bInd = 1 ∧ oInd = 0) :
    (t.dropCommit m bInd nb gb).1 = true ∧
    ((t.dropCommit m bInd nb gb).2.game bInd).board = nb ∧
    ((t.dropCommit m bInd nb gb).2.game bInd).white_sp = gb.white_sp ∧
    ((t.dropCommit m bInd nb gb).2.game bInd).black_sp = gb.black_sp ∧
    (t.dropCommit m bInd nb gb).2.game oInd = t.game oInd ∧
    (t.dropCommit m bInd nb gb).2.started = true := by
  rcases hio with ⟨hb, ho⟩ | ⟨hb, ho⟩ <;> subst hb <;> subst ho <;>
    simp [TandemGame.dropCommit, TandemGame.game, TandemGame.setGame,
      ChessGame.change_turn, ChessGame.should_update]

/-- Effect of the accepted normal-move commit tail on the *other* board's
inventories when the move captures `v`: the side opposite the mover gains
one spare of `v`'s kind, the mover's own side there is unchanged. -/
theorem TandemGame.normalCommit_capture (t2 : TandemGame) (m : TandemMove)
    (bInd oInd : Nat) (board : Board) (target : Square) (ps : Piece) (cm : ChessMove)
    (v : Piece) (i : Nat)
    (hio : bInd = 0 ∧ oInd = 1 ∨ bInd = 1 ∧ oInd = 0)
    (hcap : board.piece_on target = some v) (hi : slotIdx v = some i) :
    invOf ((t2.normalCommit m bInd oInd board target ps cm).2.game oInd) m.color.flip =
      listInc (invOf (t2.game oInd) m.color.flip) i ∧
    invOf ((t2.normalCommit m bInd oInd board target ps cm).2.game oInd) m.color =
      invOf (t2.game oInd) m.color := by
  rcases hio with ⟨hb, ho⟩ | ⟨hb, ho⟩ <;> subst hb <;> subst ho <;>
    cases hc : m.color <;>
      (unfold TandemGame.normalCommit
       simp only [hcap]
       split <;>
         simp [TandemGame.game, TandemGame.setGame, ChessGame.add_piece, hi, hc,
           ChessGame.lastMoveCapture, ChessGame.change_turn, ChessGame.should_update,
           invOf, Color.flip])

/-- Any accepted normal move that captures `v` makes the other board's
inventory of the side opposite the mover gain exactly one spare of `v`'s
kind (this also holds on the cross-board promotion path, whose `add_pawn`
feeds the mover's own side and leaves the opposite side alone). -/
theorem TandemGame.normalMove_true_capture (t : TandemGame) (m : TandemMove)
    (bInd oInd : Nat) (board otherBoard : Board) (target : Square) (v : Piece) (i : Nat)
    (hio : bInd = 0 ∧ oInd = 1 ∨ bInd = 1 ∧ oInd = 0)
    (hcap : board.piece_on target = some v) (hi : slotIdx v = some i)
    (htrue : (t.normalMove m bInd oInd board otherBoard target).1 = true) :
    invOf ((t.normalMove m bInd oInd board otherBoard target).2.game oInd) m.color.flip =
      listInc (invOf (t.game oInd) m.color.flip) i := by
  have ho : oInd = 0 ∨ oInd = 1 := by
    rcases hio with ⟨_, h⟩ | ⟨_, h⟩
    · right; exact h
    · left; exact h
  revert htrue
  simp only [TandemGame.normalMove]
  repeat' split
  all_goals intro htrue
  all_goals try (exact Bool.noConfusion htrue)
  all_goals rename_i t2 heq
  all_goals refine ((TandemGame.normalCommit_capture t2 m bInd oInd board target _ _ v i
    hio hcap hi).1).trans ?_
  all_goals congr 1
  all_goals split at heq
  all_goals try (cases heq; rfl)
  all_goals repeat' split at heq
  all_goals cases heq
  all_goals rw [TandemGame.game_setGame_same t oInd _ ho, (ChessGame.add_pawn_spec _ _).2,
    invOf_board_update]

/-- An accepted move certifies every shared precondition, and `move_piece`
equals the branch selected by `source == "spare"` on the synchronized
state. -/
theorem TandemGame.move_piece_true_branch (t0 : TandemGame) (now : Int) (m : TandemMove)
    (htrue : (t0.move_piece now m).1 = true) :
    ∃ target, Square.fromString m.target = some target ∧
      (t0.synchronize_time now).finished = false ∧
      m.board ≠ 0 ∧
      (((t0.synchronize_time now).game (m.board - 1)).board).side_to_move = m.color ∧
      (((t0.synchronize_time now).game (m.board - 1)).board).piece_on target ≠
        some Piece.King ∧
      (if m.source = "spare" then
        t0.move_piece now m =
          (t0.synchronize_time now).dropMove m (m.board - 1)
            (((t0.synchronize_time now).game (m.board - 1)).board) target
      else
        t0.move_piece now m =
          (t0.synchronize_time now).normalMove m (m.board - 1) ((m.board - 1 + 1) % 2)
            (((t0.synchronize_time now).game (m.board - 1)).board)
            (((t0.synchronize_time now).game ((m.board - 1 + 1) % 2)).board) target) := by
  revert htrue
  simp only [TandemGame.move_piece]
  repeat' split
  all_goals intro htrue
  all_goals try (exact Bool.noConfusion htrue)
  · rename_i hfin hb0 hside scr target heq hking hsrc
    exact ⟨target, heq, by simpa using hfin, hb0, not_ne_iff.mp hside, hking,
      by simp [hsrc]⟩
  · rename_i hfin hb0 hside scr target heq hking hsrc
    exact ⟨target, heq, by simpa using hfin, hb0, not_ne_iff.mp hside, hking,
      by simp [hsrc]⟩

/-- An accepted drop with a parsed drop spec certifies the placement and the
successful spare deduction, and equals the commit tail. -/
theorem TandemGame.dropMove_true_dec (t : TandemGame) (m : TandemMove) (bInd : Nat)
    (board : Board) (target : Square) (c0 c1 : Char) (c : Color) (p : Piece)
    (hlist : m.piece.toList = [c0, c1])
    (hcc : charColor c0 = some c) (hcp : charPiece c1 = some p)
    (htrue : (t.dropMove m bInd board target).1 = true) :
    ∃ nb, board.piece_on target = none ∧
      set_piece_on_board board p c target = some nb ∧
      ((t.game bInd).decrease_count c p).1 = true ∧
      t.dropMove m bInd board target =
        t.dropCommit m bInd nb ((t.game bInd).decrease_count c p).2 := by
  revert htrue
  simp only [TandemGame.dropMove, hlist, hcc, hcp]
  repeat' split
  all_goals intro htrue
  all_goals try (exact Bool.noConfusion htrue)
  rename_i hIsSome hpawn xscr nb hspob xp gb hdec
  refine ⟨nb, ?_, hspob, by rw [hdec], by rw [hdec]⟩
  simp only [Bool.not_eq_true] at hIsSome
  exact Option.not_isSome_iff_eq_none.mp (by simp [hIsSome])

/-- A drop satisfying every guard, with a successful placement and a
non-empty spare slot, is accepted. -/
theorem TandemGame.dropMove_true_of (t : TandemGame) (m : TandemMove) (bInd : Nat)
    (board : Board) (target : Square) (c0 c1 : Char) (c : Color) (p : Piece) (nb : Board)
    (hlist : m.piece.toList = [c0, c1])
    (hcc : charColor c0 = some c) (hcp : charPiece c1 = some p)
    (hempty : board.piece_on target = none)
    (hpawn : ¬(p = Piece.Pawn ∧ (target.rank = 0 ∨ target.rank = 7)))
    (hspob : set_piece_on_board board p c target = some nb)
    (hdec : ((t.game bInd).decrease_count c p).1 = true) :
    (t.dropMove m bInd board target).1 = true := by
  rw [TandemGame.dropMove_run t m bInd board target c0 c1 c p nb
    hlist hcc hcp hempty hpawn hspob]
  rcases h : (t.game bInd).decrease_count c p with ⟨b, gb⟩
  rw [h] at hdec
  cases b
  · exact Bool.noConfusion hdec
  · rfl

/-- Piece placement of the standard opening position (the oracle's
`Board::default()`), used to make the witness traces chess-accurate. -/
def startPieceOn (sq : Square) : Option Piece :=
  if sq.rank = 0 ∨ sq.rank = 7 then
    (if sq.file = 0 ∨ sq.file = 7 then some .Rook
     else if sq.file = 1 ∨ sq.file = 6 then some .Knight
     else if sq.file = 2 ∨ sq.file = 5 then some .Bishop
     else if sq.file = 3 then some .Queen
     else some .King)
  else if sq.rank = 1 ∨ sq.rank = 6 then some .Pawn
  else none

/-- Colors of the standard opening position. -/
def startColorOn (sq : Square) : Option Color :=
  if (startPieceOn sq).isSome then
    (if sq.rank ≤ 1 then some .White else if 6 ≤ sq.rank then some .Black else none)
  else none

/-- A featureless board value (every observation fixed, every transform
refused); stands in for positions whose oracle answers the exercised traces
never consult. -/
def inertBoard : Board :=
  .mk .White (fun _ => none) (fun _ => none) (fun _ => ⟨0, 0⟩) .Ongoing ""
    (fun _ => false) (fun _ => .dead) none (fun _ => none) (fun _ _ _ => none)

/-- The position after 1.e4: Black to move, game ongoing, kings on e1/e8 —
the three observations the trace consults, answered as real chess does. -/
def boardAfterE4 : Board :=
  .mk .Black (fun _ => none) (fun _ => none)
    (fun c => if c = .White then ⟨4, 0⟩ else ⟨4, 7⟩) .Ongoing "fen-after-e4"
    (fun _ => false) (fun _ => .dead) none (fun _ => none) (fun _ _ _ => none)

/-- The standard opening position: White to move, e2/e4 and every other
square answered as real chess does, 1.e2-e4 legal, and the move transform
yielding `boardAfterE4`. -/
def startBoard : Board :=
  .mk .White startPieceOn startColorOn
    (fun c => if c = .White then ⟨4, 0⟩ else ⟨4, 7⟩) .Ongoing "fen-start"
    (fun cm => decide (cm = ⟨⟨4, 1⟩, ⟨4, 3⟩, none⟩)) (fun _ => boardAfterE4) none
    (fun _ => none) (fun _ _ _ => none)

/-- The frame `1;W;e2;e4;;`. -/
def mv1 : TandemMove := ⟨1, .White, "e2", "e4", "", ""⟩

/-- A fresh tandem game on the opening position. -/
def tdStart : TandemGame := TandemGame.new startBoard

/-- After the accepted 1.e4 on board 1 at wall-clock 1000 ms. -/
def stT1 : TandemGame := (tdStart.move_piece 1000 mv1).2

/-- After a rejected echo of the same frame at 400000 ms (White is no longer
to move); this call seeds `last_sync`. -/
def stT2 : TandemGame := (stT1.move_piece 400000 mv1).2

/-- After another rejected frame at 800000 ms: the 400-second debit flags
both boards, so `finished` latches. -/
def stT3 : TandemGame := (stT2.move_piece 800000 mv1).2

example : (tdStart.move_piece 1000 mv1).1 = true := by decide
example : stT1.started = true ∧ stT1.last_sync = 0 := by decide
example : (stT1.move_piece 400000 mv1).1 = false := by decide
example : stT2.last_sync = 400000 ∧ stT2.finished = false := by decide
example : stT3.finished = true ∧ stT3.last_sync = 800000 := by decide
example : (stT3.move_piece 900000 mv1).1 = false ∧
    (stT3.move_piece 900000 mv1).2.last_sync = 900000 := by decide

/-- Position after 1...exd5-style capture used below: Black to move, game
ongoing, kings on e1/e8. -/
def capAfter : Board :=
  .mk .Black (fun _ => none) (fun _ => none)
    (fun c => if c = .White then ⟨4, 0⟩ else ⟨4, 7⟩) .Ongoing "fen-cap-after"
    (fun _ => false) (fun _ => .dead) none (fun _ => none) (fun _ _ _ => none)

/-- A middlegame oracle position: White pawn on e4, Black pawn on d5, kings
on e1/e8, White to move, the capture e4xd5 legal. -/
def capBoard : Board :=
  .mk .White
    (fun sq =>
      if sq = ⟨4, 3⟩ then some .Pawn else if sq = ⟨3, 4⟩ then some .Pawn
      else if sq = ⟨4, 0⟩ then some .King else if sq = ⟨4, 7⟩ then some .King
      else none)
    (fun sq =>
      if sq = ⟨4, 3⟩ then some .White else if sq = ⟨3, 4⟩ then some .Black
      else if sq = ⟨4, 0⟩ then some .White else if sq = ⟨4, 7⟩ then some .Black
      else none)
    (fun c => if c = .White then ⟨4, 0⟩ else ⟨4, 7⟩) .Ongoing "fen-cap"
    (fun cm => decide (cm = ⟨⟨4, 3⟩, ⟨3, 4⟩, none⟩)) (fun _ => capAfter) none
    (fun _ => none) (fun _ _ _ => none)

/-- A tandem game whose board 1 is `capBoard`. -/
def capState : TandemGame :=
  { g0 := ChessGame.new capBoard, g1 := ChessGame.new inertBoard,
    started := false, finished := false, last_sync := 0 }

/-- The frame `1;W;e4;d5;;` — White captures the d5 pawn on board 1. -/
def capMove : TandemMove := ⟨1, .White, "e4", "d5", "", ""⟩

/-- The frame `1;W;e4;e8;;` — an attempt to capture the Black king. -/
def kingMove : TandemMove := ⟨1, .White, "e4", "e8", "", ""⟩

example : (capState.move_piece 0 capMove).1 = true := by decide
example : ((capState.move_piece 0 capMove).2.game 1).black_sp = [0, 0, 0, 0, 1] := by decide
example : ((capState.move_piece 0 capMove).2.game 1).white_sp = [0, 0, 0, 0, 0] := by decide
example : (capState.move_piece 0 kingMove).1 = false := by decide

/-- Checkmate position after a White knight lands on h3 with the mated Black
king far away on a8 (a long-range smothered-style knight mate). -/
def kMate : Board :=
  .mk .Black (fun _ => none) (fun _ => none)
    (fun c => if c = .White then ⟨4, 0⟩ else ⟨0, 7⟩) .Checkmate "fen-k-mate"
    (fun _ => false) (fun _ => .dead) none (fun _ => none) (fun _ _ _ => none)

/-- An oracle position where dropping a White knight on h3 produces
`kMate`. -/
def kBoard : Board :=
  .mk .White (fun _ => none) (fun _ => none)
    (fun c => if c = .White then ⟨4, 0⟩ else ⟨0, 7⟩) .Ongoing "fen-k"
    (fun _ => false) (fun _ => .dead) none (fun _ => none)
    (fun p c sq => if p = .Knight ∧ c = .White ∧ sq = ⟨7, 2⟩ then some kMate else none)

/-- A tandem game whose board 1 is `kBoard`, one White knight spare in
stock. -/
def kState : TandemGame :=
  { g0 := { ChessGame.new kBoard with white_sp := [0, 0, 0, 1, 0] },
    g1 := ChessGame.new inertBoard, started := false, finished := false, last_sync := 0 }

/-- The frame `1;W;spare;h3;wN;`. -/
def kMove : TandemMove := ⟨1, .White, "spare", "h3", "wN", ""⟩

/-- Checkmate position after a White rook lands on g7 adjacent to the mated
Black king on h8. -/
def cMate : Board :=
  .mk .Black (fun _ => none) (fun _ => none)
    (fun c => if c = .White then ⟨4, 0⟩ else ⟨7, 7⟩) .Checkmate "fen-c-mate"
    (fun _ => false) (fun _ => .dead) none (fun _ => none) (fun _ _ _ => none)

/-- An oracle position where dropping a White rook on g7 produces `cMate`. -/
def cBoard : Board :=
  .mk .White (fun _ => none) (fun _ => none)
    (fun c => if c = .White then ⟨4, 0⟩ else ⟨7, 7⟩) .Ongoing "fen-c"
    (fun _ => false) (fun _ => .dead) none (fun _ => none)
    (fun p c sq => if p = .Rook ∧ c = .White ∧ sq = ⟨6, 6⟩ then some cMate else none)

/-- A tandem game whose board 1 is `cBoard`, one White rook spare in
stock. -/
def cState : TandemGame :=
  { g0 := { ChessGame.new cBoard with white_sp := [0, 1, 0, 0, 0] },
    g1 := ChessGame.new inertBoard, started := false, finished := false, last_sync := 0 }

/-- The frame `1;W;spare;g7;wR;`. -/
def cMove : TandemMove := ⟨1, .White, "spare", "g7", "wR", ""⟩

/-- Back-rank checkmate after a White rook lands on a8, seven files away
from the mated Black king on h8. -/
def fMate : Board :=
  .mk .Black (fun _ => none) (fun _ => none)
    (fun c => if c = .White then ⟨4, 0⟩ else ⟨7, 7⟩) .Checkmate "fen-f-mate"
    (fun _ => false) (fun _ => .dead) none (fun _ => none) (fun _ _ _ => none)

/-- An oracle position where dropping a White rook on a8 produces `fMate`. -/
def fBoard : Board :=
  .mk .White (fun _ => none) (fun _ => none)
    (fun c => if c = .White then ⟨4, 0⟩ else ⟨7, 7⟩) .Ongoing "fen-f"
    (fun _ => false) (fun _ => .dead) none (fun _ => none)
    (fun p c sq => if p = .Rook ∧ c = .White ∧ sq = ⟨0, 7⟩ then some fMate else none)

/-- A tandem game whose board 1 is `fBoard`, one White rook spare in
stock. -/
def fState : TandemGame :=
  { g0 := { ChessGame.new fBoard with white_sp := [0, 1, 0, 0, 0] },
    g1 := ChessGame.new inertBoard, started := false, finished := false, last_sync := 0 }

/-- The same game with the rook spare exhausted. -/
def zState : TandemGame :=
  { g0 := ChessGame.new fBoard, g1 := ChessGame.new inertBoard,
    started := false, finished := false, last_sync := 0 }

/-- The frame `1;W;spare;a8;wR;`. -/
def fMove : TandemMove := ⟨1, .White, "spare", "a8", "wR", ""⟩

example : (kState.move_piece 0 kMove).1 = false := by decide
example : (cState.move_piece 0 cMove).1 = false := by decide
example : (fState.move_piece 0 fMove).1 = true := by decide
example : (zState.move_piece 0 fMove).1 = false := by decide

/-- The position after a *Black* knight appears on a3: White to move
(placing a black piece hands the turn to White), game ongoing. -/
def wAfter : Board :=
  .mk .White (fun _ => none) (fun _ => none)
    (fun c => if c = .White then ⟨4, 0⟩ else ⟨4, 7⟩) .Ongoing "fen-w-after"
    (fun _ => false) (fun _ => .dead) none (fun _ => none) (fun _ _ _ => none)

/-- An oracle position with White to move where dropping a Black knight on
a3 produces `wAfter`. -/
def wBoard : Board :=
  .mk .White (fun _ => none) (fun _ => none)
    (fun c => if c = .White then ⟨4, 0⟩ else ⟨4, 7⟩) .Ongoing "fen-w"
    (fun _ => false) (fun _ => .dead) none (fun _ => none)
    (fun p c sq => if p = .Knight ∧ c = .Black ∧ sq = ⟨0, 2⟩ then some wAfter else none)

/-- A tandem game whose board 1 is `wBoard` with one *Black* knight spare. -/
def wState : TandemGame :=
  { g0 := { ChessGame.new wBoard with black_sp := [0, 0, 0, 1, 0] },
    g1 := ChessGame.new inertBoard, started := false, finished := false, last_sync := 0 }

/-- The frame `1;W;spare;a3;bN;` — the color field says White (and White is
to move) but the piece field names a Black knight. -/
def wMove : TandemMove := ⟨1, .White, "spare", "a3", "bN", ""⟩

example : (wState.move_piece 0 wMove).1 = true := by decide
example : ((wState.move_piece 0 wMove).2.game 0).black_sp = [0, 0, 0, 0, 0] := by decide
example : ((wState.move_piece 0 wMove).2.game 0).white_sp = [0, 0, 0, 0, 0] := by decide
example : ((wState.move_piece 0 wMove).2.game 0).board.fen = "fen-w-after" := by decide

/-- First component of a per-board `should_update`. -/
theorem ChessGame.should_update_fst (g : ChessGame) :
    (g.should_update).1 =
      (g.last_time_sum != (g.white_time + 999) / 1000 + (g.black_time + 999) / 1000) := rfl

/-- Second component of a per-board `should_update`. -/
theorem ChessGame.should_update_snd (g : ChessGame) :
    (g.should_update).2 =
      { g with last_time_sum :=
          (g.white_time + 999) / 1000 + (g.black_time + 999) / 1000 } := rfl

/-- With the finish latch already set, `move_piece` rejects immediately
after the entry synchronization. -/
theorem TandemGame.move_piece_finished (t : TandemGame) (now : Int) (m : TandemMove)
    (h : t.finished = true) :
    t.move_piece now m = (false, t.synchronize_time now) := by
  have hs := TandemGame.sync_finished_latch t now h
  simp [TandemGame.move_piece, hs]

/-- Claim C5 (amended): `move_piece` returns true iff the move is accepted,
and whenever it returns false the exit state is exactly the state produced
by the entry clock synchronization — both boards, all spare inventories,
turn and last-move metadata and `started` are unchanged; only the clocks,
`last_sync` and (through a flag fall) `finished` can differ from the entry
state. -/
theorem claim_C5 (t0 : TandemGame) (now : Int) (m : TandemMove)
    (_hb : m.board = 0 ∨ m.board = 1 ∨ m.board = 2)
    (hfalse : (t0.move_piece now m).1 = false) :
    (t0.move_piece now m).2 = t0.synchronize_time now ∧
    (t0.move_piece now m).2.started = t0.started ∧
    (∀ i : Nat,
      ((t0.move_piece now m).2.game i).board = (t0.game i).board ∧
      ((t0.move_piece now m).2.game i).white_sp = (t0.game i).white_sp ∧
      ((t0.move_piece now m).2.game i).black_sp = (t0.game i).black_sp ∧
      ((t0.move_piece now m).2.game i).turn = (t0.game i).turn ∧
      ((t0.move_piece now m).2.game i).last_move_capture = (t0.game i).last_move_capture ∧
      ((t0.move_piece now m).2.game i).last_move = (t0.game i).last_move) := by
  have h2 := TandemGame.move_piece_false t0 now m hfalse
  refine ⟨h2, ?_, fun i => ?_⟩
  · rw [h2]; exact TandemGame.sync_started t0 now
  · rw [h2]
    obtain ⟨a, b, c, d, e, _, f⟩ := TandemGame.sync_game_fields t0 now i
    exact ⟨a, b, c, d, e, f⟩

/-- Claim C5 witness: a rejected frame on the reachable state `stT1` leaves
exactly the synchronized entry state. -/
theorem claim_C5_witness :
    (stT1.move_piece 400000 mv1).1 = false ∧
    (stT1.move_piece 400000 mv1).2 = stT1.synchronize_time 400000 := by
  have h : (stT1.move_piece 400000 mv1).1 = false := by decide
  exact ⟨h, (claim_C5 stT1 400000 mv1 (Or.inr (Or.inl rfl)) h).1⟩

/-- Claim C5 counterexample: on the reachable state `stT1` (one accepted
move after a fresh game, `last_sync = 0`), the rejected frame `1;W;e2;e4;;`
at wall-clock 400000 returns false yet changes `last_sync` to 400000, so
the exit state does not equal the entry state. -/
theorem claim_C5_counterexample :
    (tdStart.move_piece 1000 mv1).1 = true ∧
    (stT1.move_piece 400000 mv1).1 = false ∧
    (stT1.move_piece 400000 mv1).2.last_sync = 400000 ∧
    stT1.last_sync = 0 := by decide

/-- Claim C6 (amended): `finished` is a latch — `synchronize_time`,
`should_update` and `move_piece` keep it set, while it is set `move_piece`
returns false and performs no mutation beyond the entry clock
synchronization, `should_update` returns false and mutates nothing, and
`reset` (alone) clears the latch. -/
theorem claim_C6 (t : TandemGame) (d : Board) (now : Int) (m : TandemMove) :
    (t.finished = true →
      t.move_piece now m = (false, t.synchronize_time now) ∧
      (t.move_piece now m).2.finished = true ∧
      (t.synchronize_time now).finished = true ∧
      t.should_update now = (false, t)) ∧
    (t.reset d).finished = false := by
  constructor
  · intro h
    have hs := TandemGame.sync_finished_latch t now h
    have hm := TandemGame.move_piece_finished t now m h
    refine ⟨hm, by rw [hm]; exact hs, hs, ?_⟩
    simp [TandemGame.should_update, h]
  · rfl

/-- Claim C6 witness: on the reachable finished state `stT3` every part of
the latch property is realized. -/
theorem claim_C6_witness :
    stT3.finished = true ∧
    stT3.move_piece 900000 mv1 = (false, stT3.synchronize_time 900000) ∧
    (stT3.reset startBoard).finished = false := by
  have h : stT3.finished = true := by decide
  exact ⟨h, ((claim_C6 stT3 startBoard 900000 mv1).1 h).1,
    (claim_C6 stT3 startBoard 900000 mv1).2⟩

/-- Claim C6 counterexample: on the reachable finished state `stT3`
(flag-fall at wall-clock 800000), a further `move_piece` call at 900000
returns false but still mutates the state — `last_sync` moves from 800000
to 900000 — so "accepts no mutation while finished" fails as stated. -/
theorem claim_C6_counterexample :
    stT3.finished = true ∧
    (stT3.move_piece 900000 mv1).1 = false ∧
    (stT3.move_piece 900000 mv1).2.last_sync = 900000 ∧
    stT3.last_sync = 800000 := by decide

/-- Discriminator for JSON objects. -/
def Json.isObj : Json → Bool
  | .obj _ => true
  | _ => false

/-- Claim C7 (amended): the snapshot serializer produces a JSON object with
the caller-supplied boolean `valid` and with `board_1` / `board_2` fields
that are JSON *strings* holding the rendered PerBoardGame document of shape
{fen, last_move_capture, white_sp, black_sp, white_time "M:SS", black_time
"M:SS", last_move}, the clock readouts in ceiling seconds. -/
theorem claim_C7 (t : TandemGame) (valid : Bool) :
    (t.getFenJson valid).getField "valid" = some (.bool valid) ∧
    (t.getFenJson valid).getField "board_1" = some (.str (Json.render t.g0.toJson)) ∧
    (t.getFenJson valid).getField "board_2" = some (.str (Json.render t.g1.toJson)) ∧
    t.get_fen valid = Json.render (t.getFenJson valid) ∧
    (∀ g : ChessGame,
      (g.toJson).getField "fen" = some (.str g.board.fen) ∧
      (g.toJson).getField "last_move_capture" = some (.bool g.last_move_capture) ∧
      (g.toJson).getField "white_sp" = some (.arr (g.white_sp.map Json.num)) ∧
      (g.toJson).getField "black_sp" = some (.arr (g.black_sp.map Json.num)) ∧
      (g.toJson).getField "last_move" = some (.str g.last_move) ∧
      (0 ≤ g.white_time → (g.toJson).getField "white_time" =
        some (.str (formatMinSec (specCeilSec g.white_time)))) ∧
      (0 ≤ g.black_time → (g.toJson).getField "black_time" =
        some (.str (formatMinSec (specCeilSec g.black_time))))) := by
  refine ⟨rfl, rfl, rfl, rfl, fun g => ⟨rfl, rfl, rfl, rfl, rfl, ?_, ?_⟩⟩
  · intro h; rw [← add999_div_eq_ceil _ h]; rfl
  · intro h; rw [← add999_div_eq_ceil _ h]; rfl

/-- Claim C7 witness: the serializer shape realized on the fresh game with
`valid = false`, ceiling-seconds hypothesis discharged at 300000 ms. -/
theorem claim_C7_witness :
    (tdStart.getFenJson false).getField "valid" = some (.bool false) ∧
    (0 ≤ tdStart.g0.white_time) ∧
    (tdStart.g0.toJson).getField "white_time" =
      some (.str (formatMinSec (specCeilSec tdStart.g0.white_time))) := by
  refine ⟨(claim_C7 tdStart false).1, by decide, ?_⟩
  exact (((claim_C7 tdStart false).2.2.2.2 tdStart.g0).2.2.2.2.2.1) (by decide)

/-- Claim C7 counterexample: in the snapshot of a fresh game the `board_1`
field is present but is a JSON string, not a JSON object — `get_fen` embeds
the already rendered `ChessGame::to_string` output as a string value. -/
theorem claim_C7_counterexample :
    (((TandemGame.new inertBoard).getFenJson true).getField "board_1").map Json.isObj =
      some false := rfl

/-- Claim C8 (amended): `change_turn` flips `turn`, records the move string
as `last_move`, and updates `last_time_sum` through `should_update` to the
current ceiling-seconds sum — so the next `should_update` with no
intervening time advance returns *false* (no redundant re-broadcast of an
unchanged clock readout). -/
theorem claim_C8 (g : ChessGame) (mv : String) :
    (g.change_turn mv).turn = g.turn.flip ∧
    (g.change_turn mv).last_move = mv ∧
    (g.change_turn mv).last_time_sum =
      (g.white_time + 999) / 1000 + (g.black_time + 999) / 1000 ∧
    ((g.change_turn mv).should_update).1 = false := by
  refine ⟨?_, ?_, ?_, ?_⟩ <;>
    simp [ChessGame.change_turn, ChessGame.should_update]

/-- Claim C8 counterexample: right after `change_turn` on the fresh
per-board game the next `should_update` returns false, not true — the
claimed immediate re-broadcast does not happen. -/
theorem claim_C8_counterexample :
    ((ChessGame.new inertBoard).change_turn "e2-e4").turn = Color.Black ∧
    ((ChessGame.new inertBoard).change_turn "e2-e4").last_move = "e2-e4" ∧
    (((ChessGame.new inertBoard).change_turn "e2-e4").should_update).1 = false := by
  exact ⟨rfl, rfl, rfl⟩

/-- A `should_update` call re-run on the same clocks with the refreshed
baseline reports no change. -/
theorem ChessGame.should_update_twice (g g2 : ChessGame)
    (hlt : g2.last_time_sum = ((g.should_update).2).last_time_sum)
    (hw : g2.white_time = g.white_time) (hb : g2.black_time = g.black_time) :
    (g2.should_update).1 = false := by
  rw [ChessGame.should_update_fst, hlt, hw, hb, ChessGame.should_update_snd]
  simp

/-- Claim C9 (amended): when the tandem `should_update` is called twice with
no intervening time advance (the second synchronization leaves all four
clock values unchanged) *and the first call returned false*, the second
call returns false.  (When the first call returns true it may have
short-circuited before refreshing board 2's baseline, and the second call
can then still return true — see the counterexample.) -/
theorem claim_C9 (t : TandemGame) (now1 now2 : Int)
    (hfirst : (t.should_update now1).1 = false)
    (hw0 : (((t.should_update now1).2).synchronize_time now2).g0.white_time =
      ((t.should_update now1).2).g0.white_time)
    (hb0 : (((t.should_update now1).2).synchronize_time now2).g0.black_time =
      ((t.should_update now1).2).g0.black_time)
    (hw1 : (((t.should_update now1).2).synchronize_time now2).g1.white_time =
      ((t.should_update now1).2).g1.white_time)
    (hb1 : (((t.should_update now1).2).synchronize_time now2).g1.black_time =
      ((t.should_update now1).2).g1.black_time) :
    (((t.should_update now1).2).should_update now2).1 = false := by
  by_cases hfin : t.finished = true
  · have h2 : (t.should_update now1).2 = t := by simp [TandemGame.should_update, hfin]
    rw [h2]
    simp [TandemGame.should_update, hfin]
  · have hunfold : t.should_update now1 =
        (if ((t.synchronize_time now1).g0.should_update).1 then
          (true, { t.synchronize_time now1 with
                   g0 := ((t.synchronize_time now1).g0.should_update).2 })
        else
          ((((t.synchronize_time now1).g1.should_update).1,
            { t.synchronize_time now1 with
              g0 := ((t.synchronize_time now1).g0.should_update).2,
              g1 := ((t.synchronize_time now1).g1.should_update).2 }))) := by
      unfold TandemGame.should_update
      rw [if_neg hfin]
    by_cases hA : ((t.synchronize_time now1).g0.should_update).1 = true
    · rw [hunfold, if_pos hA] at hfirst
      exact absurd hfirst (by simp)
    · have hs1 : (t.should_update now1).2 =
          { t.synchronize_time now1 with
            g0 := ((t.synchronize_time now1).g0.should_update).2,
            g1 := ((t.synchronize_time now1).g1.should_update).2 } := by
        rw [hunfold, if_neg hA]
      rw [hs1] at hw0 hb0 hw1 hb1 ⊢
      have hg0lt := (TandemGame.sync_game_fields
        { t.synchronize_time now1 with
          g0 := ((t.synchronize_time now1).g0.should_update).2,
          g1 := ((t.synchronize_time now1).g1.should_update).2 } now2 0).2.2.2.2.2.1
      have hg1lt := (TandemGame.sync_game_fields
        { t.synchronize_time now1 with
          g0 := ((t.synchronize_time now1).g0.should_update).2,
          g1 := ((t.synchronize_time now1).g1.should_update).2 } now2 1).2.2.2.2.2.1
      have hA2 := ChessGame.should_update_twice ((t.synchronize_time now1)).g0 _ hg0lt hw0 hb0
      have hB2 := ChessGame.should_update_twice ((t.synchronize_time now1)).g1 _ hg1lt hw1 hb1
      simp only [TandemGame.game] at hA2 hB2
      simp only [reduceIte] at hA2 hB2
      unfold TandemGame.should_update
      split
      · rfl
      · simp [hA2]
        exact hB2

/-- The fresh game after two `should_update` calls (both baselines now
refreshed). -/
def s9 : TandemGame :=
  (((TandemGame.new inertBoard).should_update 0).2.should_update 0).2

/-- Claim C9 witness: on `s9` a false `should_update` followed by another
call with no time advance returns false again. -/
theorem claim_C9_witness :
    (s9.should_update 0).1 = false ∧
    ((s9.should_update 0).2.should_update 0).1 = false := by
  have h1 : (s9.should_update 0).1 = false := by decide
  refine ⟨h1, claim_C9 s9 0 0 h1 ?_ ?_ ?_ ?_⟩ <;> decide

/-- Claim C9 counterexample: on a fresh game the first `should_update`
returns true and short-circuits before refreshing board 2's baseline, so a
second call with no intervening time advance *also* returns true — the
claim's "the second call returns false" is violated. -/
theorem claim_C9_counterexample :
    ((TandemGame.new inertBoard).should_update 0).1 = true ∧
    (((TandemGame.new inertBoard).should_update 0).2.should_update 0).1 = true := by
  decide

/-- Spare-array indices are always in range. -/
theorem slotIdx_lt (p : Piece) (i : Nat) (h : slotIdx p = some i) : i < 5 := by
  cases p <;> simp [slotIdx] at h <;> omega

/-- Clock synchronization does not touch the spare inventories. -/
theorem invOf_sync (t : TandemGame) (now : Int) (i : Nat) (c : Color) :
    invOf ((t.synchronize_time now).game i) c = invOf (t.game i) c := by
  cases c
  · exact (TandemGame.sync_game_fields t now i).2.1
  · exact (TandemGame.sync_game_fields t now i).2.2.1

/-- Any accepted capturing normal move adds exactly one spare of the
captured kind to the other board's inventory of the side opposite the
mover. -/
theorem TandemGame.move_piece_capture_inv (t0 : TandemGame) (now : Int)
    (m : TandemMove) (target : Square) (v : Piece) (i : Nat)
    (hb : m.board = 1 ∨ m.board = 2)
    (htgt : Square.fromString m.target = some target)
    (hsrc : m.source ≠ "spare")
    (hcap : ((t0.game (m.board - 1)).board).piece_on target = some v)
    (hslot : slotIdx v = some i)
    (htrue : (t0.move_piece now m).1 = true) :
    invOf ((t0.move_piece now m).2.game (m.board % 2)) m.color.flip =
      listInc (invOf (t0.game (m.board % 2)) m.color.flip) i := by
  obtain ⟨tg, htg, hfin, hb0, hside, hking, hbr⟩ :=
    TandemGame.move_piece_true_branch t0 now m htrue
  rw [htgt] at htg
  injection htg with htg'
  subst htg'
  rw [if_neg hsrc] at hbr
  have hio : (m.board - 1) = 0 ∧ (m.board - 1 + 1) % 2 = 1 ∨
      (m.board - 1) = 1 ∧ (m.board - 1 + 1) % 2 = 0 := by
    rcases hb with h | h <;> simp [h]
  have hoo : (m.board % 2) = (m.board - 1 + 1) % 2 := by
    rcases hb with h | h <;> simp [h]
  have hcap' : (((t0.synchronize_time now).game (m.board - 1)).board).piece_on target =
      some v := by
    rw [(TandemGame.sync_game_fields t0 now (m.board - 1)).1]
    exact hcap
  have htrue' : ((t0.synchronize_time now).normalMove m (m.board - 1)
      ((m.board - 1 + 1) % 2) (((t0.synchronize_time now).game (m.board - 1)).board)
      (((t0.synchronize_time now).game ((m.board - 1 + 1) % 2)).board) target).1 = true := by
    rw [← hbr]; exact htrue
  have hmain := TandemGame.normalMove_true_capture (t0.synchronize_time now) m
    (m.board - 1) ((m.board - 1 + 1) % 2)
    (((t0.synchronize_time now).game (m.board - 1)).board)
    (((t0.synchronize_time now).game ((m.board - 1 + 1) % 2)).board) target v i
    hio hcap' hslot htrue'
  rw [invOf_sync] at hmain
  rw [hoo, hbr]
  exact hmain

/-- Claim C3: an accepted normal capture adds exactly one spare of the
captured kind to the capturing side's *opponent's* inventory on the other
board (that slot goes up by one, every other slot of that inventory is
unchanged), and any move whose target square holds a King is rejected
before any board transform — the exit state is exactly the synchronized
entry state. -/
theorem claim_C3 (t0 : TandemGame) (now : Int) (m : TandemMove) (target : Square)
    (v : Piece) (i : Nat)
    (hb : m.board = 1 ∨ m.board = 2)
    (htgt : Square.fromString m.target = some target) :
    (m.source ≠ "spare" →
      ((t0.game (m.board - 1)).board).piece_on target = some v →
      slotIdx v = some i →
      (t0.move_piece now m).1 = true →
      invOf ((t0.move_piece now m).2.game (m.board % 2)) m.color.flip =
        listInc (invOf (t0.game (m.board % 2)) m.color.flip) i ∧
      ((invOf (t0.game (m.board % 2)) m.color.flip).length = 5 →
        (invOf ((t0.move_piece now m).2.game (m.board % 2)) m.color.flip).getD i 0 =
          (invOf (t0.game (m.board % 2)) m.color.flip).getD i 0 + 1 ∧
        ∀ j, j ≠ i →
          (invOf ((t0.move_piece now m).2.game (m.board % 2)) m.color.flip).getD j 0 =
            (invOf (t0.game (m.board % 2)) m.color.flip).getD j 0)) ∧
    (((t0.game (m.board - 1)).board).piece_on target = some Piece.King →
      t0.move_piece now m = (false, t0.synchronize_time now)) := by
  constructor
  · intro hsrc hcap hslot htrue
    have hmain := TandemGame.move_piece_capture_inv t0 now m target v i
      hb htgt hsrc hcap hslot htrue
    refine ⟨hmain, fun hlen => ⟨?_, fun j hj => ?_⟩⟩
    · rw [hmain]
      exact listInc_getD_eq _ _ (by rw [hlen]; exact slotIdx_lt v i hslot)
    · rw [hmain]
      exact listInc_getD_ne _ _ _ hj
  · intro hk
    have hfalse : (t0.move_piece now m).1 = false := by
      by_contra hne
      have htrue : (t0.move_piece now m).1 = true := by
        revert hne; cases (t0.move_piece now m).1 <;> simp
      obtain ⟨tg, htg, _, _, _, hkg, _⟩ := TandemGame.move_piece_true_branch t0 now m htrue
      rw [htgt] at htg
      injection htg with htg'
      subst htg'
      apply hkg
      rw [(TandemGame.sync_game_fields t0 now (m.board - 1)).1]
      exact hk
    exact Prod.ext hfalse (TandemGame.move_piece_false t0 now m hfalse)

/-- Claim C3 witness: White's e4xd5 capture on `capState` feeds Black's
(the opponent's) pawn slot on board 2, and the king-capture frame is
rejected with the state exactly re-synchronized. -/
theorem claim_C3_witness :
    ((capState.move_piece 0 capMove).1 = true ∧
      invOf ((capState.move_piece 0 capMove).2.game 1) Color.Black =
        listInc (invOf (capState.game 1) Color.Black) 4) ∧
    capState.move_piece 0 kingMove = (false, capState.synchronize_time 0) := by
  have htrue : (capState.move_piece 0 capMove).1 = true := by decide
  refine ⟨⟨htrue, ?_⟩, ?_⟩
  · exact ((claim_C3 capState 0 capMove ⟨3, 4⟩ Piece.Pawn 4 (Or.inl rfl) (by decide)).1
      (by decide) (by decide) rfl htrue).1
  · exact (claim_C3 capState 0 kingMove ⟨4, 7⟩ Piece.Pawn 4 (Or.inl rfl) (by decide)).2
      (by decide)

/-- Claim C2 counterexample: on `capState` White's accepted e4xd5 capture on
board 1 leaves board 2's inventory *for White itself* unchanged (the spare
goes to Black's inventory instead), refuting the claim as stated. -/
theorem claim_C2_counterexample :
    (capState.move_piece 0 capMove).1 = true ∧
    ((capState.game 0).board).piece_on ⟨3, 4⟩ = some Piece.Pawn ∧
    invOf ((capState.move_piece 0 capMove).2.game 1) Color.White =
      invOf (capState.game 1) Color.White := by decide

/-- Claim C2 (amended): a piece captured on board B by side S adds one
spare of the captured kind to board (1−B)'s inventory for the side
*opposite* S (S's partner color on the other board). -/
theorem claim_C2 (t0 : TandemGame) (now : Int) (m : TandemMove) (target : Square)
    (v : Piece) (i : Nat)
    (hb : m.board = 1 ∨ m.board = 2)
    (htgt : Square.fromString m.target = some target)
    (hsrc : m.source ≠ "spare")
    (hcap : ((t0.game (m.board - 1)).board).piece_on target = some v)
    (hslot : slotIdx v = some i)
    (htrue : (t0.move_piece now m).1 = true) :
    invOf ((t0.move_piece now m).2.game (m.board % 2)) m.color.flip =
      listInc (invOf (t0.game (m.board % 2)) m.color.flip) i :=
  TandemGame.move_piece_capture_inv t0 now m target v i hb htgt hsrc hcap hslot htrue

/-- Claim C2 witness: the amended statement realized on `capState` — the
captured pawn lands in Black's pawn slot on board 2. -/
theorem claim_C2_witness :
    invOf ((capState.move_piece 0 capMove).2.game 1) Color.Black =
      listInc (invOf (capState.game 1) Color.Black) 4 := by
  exact claim_C2 capState 0 capMove ⟨3, 4⟩ Piece.Pawn 4 (Or.inl rfl) (by decide)
    (by decide) (by decide) rfl (by decide)

/-- Claim C4: an accepted drop deducts, at the moment of the drop, exactly
one spare of the dropped piece's kind from the inventory of the dropped
piece's color on that board (that slot down by one, all other slots and the
other color's inventory on that board and both inventories on the other
board unchanged); and a drop whose spare count is zero is rejected with
every inventory count unchanged. -/
theorem claim_C4 (t0 : TandemGame) (now : Int) (m : TandemMove) (target : Square)
    (c0 c1 : Char) (c : Color) (p : Piece) (iSlot : Nat)
    (hb : m.board = 1 ∨ m.board = 2)
    (hsrc : m.source = "spare")
    (hlist : m.piece.toList = [c0, c1])
    (hcc : charColor c0 = some c)
    (hcp : charPiece c1 = some p)
    (hslot : slotIdx p = some iSlot)
    (htgt : Square.fromString m.target = some target) :
    ((t0.move_piece now m).1 = true →
      invOf ((t0.move_piece now m).2.game (m.board - 1)) c =
        listDec (invOf (t0.game (m.board - 1)) c) iSlot ∧
      invOf ((t0.move_piece now m).2.game (m.board - 1)) c.flip =
        invOf (t0.game (m.board - 1)) c.flip ∧
      (∀ col, invOf ((t0.move_piece now m).2.game (m.board % 2)) col =
        invOf (t0.game (m.board % 2)) col) ∧
      ((invOf (t0.game (m.board - 1)) c).length = 5 →
        (invOf ((t0.move_piece now m).2.game (m.board - 1)) c).getD iSlot 0 =
          (invOf (t0.game (m.board - 1)) c).getD iSlot 0 - 1 ∧
        ∀ j, j ≠ iSlot →
          (invOf ((t0.move_piece now m).2.game (m.board - 1)) c).getD j 0 =
            (invOf (t0.game (m.board - 1)) c).getD j 0)) ∧
    ((invOf (t0.game (m.board - 1)) c).getD iSlot 0 = 0 →
      (t0.move_piece now m).1 = false ∧
      ∀ k col, invOf ((t0.move_piece now m).2.game k) col = invOf (t0.game k) col) := by
  constructor
  · intro htrue
    obtain ⟨tg, htg, hfin, hb0, hside, hking, hbr⟩ :=
      TandemGame.move_piece_true_branch t0 now m htrue
    rw [htgt] at htg
    injection htg with htg'
    subst htg'
    rw [if_pos hsrc] at hbr
    have htrue' : ((t0.synchronize_time now).dropMove m (m.board - 1)
        (((t0.synchronize_time now).game (m.board - 1)).board) target).1 = true := by
      rw [← hbr]; exact htrue
    obtain ⟨nb, hempty, hspob, hdec, heq⟩ := TandemGame.dropMove_true_dec
      (t0.synchronize_time now) m (m.board - 1)
      (((t0.synchronize_time now).game (m.board - 1)).board) target c0 c1 c p
      hlist hcc hcp htrue'
    have hpos : 0 < (invOf ((t0.synchronize_time now).game (m.board - 1)) c).getD iSlot 0 := by
      by_contra hle
      rw [ChessGame.decrease_count_zero ((t0.synchronize_time now).game (m.board - 1))
        c p iSlot hslot (by omega)] at hdec
      exact Bool.noConfusion hdec
    have hspec := ChessGame.decrease_count_pos ((t0.synchronize_time now).game (m.board - 1))
      c p iSlot hslot hpos
    have hio : (m.board - 1) = 0 ∧ (m.board - 1 + 1) % 2 = 1 ∨
        (m.board - 1) = 1 ∧ (m.board - 1 + 1) % 2 = 0 := by
      rcases hb with h | h <;> simp [h]
    have hoo : (m.board % 2) = (m.board - 1 + 1) % 2 := by
      rcases hb with h | h <;> simp [h]
    have hcs := TandemGame.dropCommit_spec (t0.synchronize_time now) m (m.board - 1)
      ((m.board - 1 + 1) % 2) nb
      (((t0.synchronize_time now).game (m.board - 1)).decrease_count c p).2 hio
    have hres : (t0.move_piece now m).2 =
        ((t0.synchronize_time now).dropCommit m (m.board - 1) nb
          (((t0.synchronize_time now).game (m.board - 1)).decrease_count c p).2).2 := by
      rw [hbr, heq]
    have hcinv : ∀ col, invOf ((t0.move_piece now m).2.game (m.board - 1)) col =
        invOf (((t0.synchronize_time now).game (m.board - 1)).decrease_count c p).2 col := by
      intro col
      rw [hres]
      cases col
      · exact hcs.2.2.1
      · exact hcs.2.2.2.1
    have hmain : invOf ((t0.move_piece now m).2.game (m.board - 1)) c =
        listDec (invOf (t0.game (m.board - 1)) c) iSlot := by
      rw [hcinv c, hspec.2.1, invOf_sync]
    refine ⟨hmain, ?_, ?_, fun hlen => ⟨?_, fun j hj => ?_⟩⟩
    · rw [hcinv c.flip, hspec.2.2.1, invOf_sync]
    · intro col
      rw [hres, hoo]
      rw [hcs.2.2.2.2.1, invOf_sync]
    · rw [hmain]
      exact listDec_getD_eq _ _ (by rw [hlen]; exact slotIdx_lt p iSlot hslot)
    · rw [hmain]
      exact listDec_getD_ne _ _ _ hj
  · intro hz
    have hfalse : (t0.move_piece now m).1 = false := by
      by_contra hne
      have htrue : (t0.move_piece now m).1 = true := by
        revert hne; cases (t0.move_piece now m).1 <;> simp
      obtain ⟨tg, htg, hfin, hb0, hside, hking, hbr⟩ :=
        TandemGame.move_piece_true_branch t0 now m htrue
      rw [htgt] at htg
      injection htg with htg'
      subst htg'
      rw [if_pos hsrc] at hbr
      have htrue' : ((t0.synchronize_time now).dropMove m (m.board - 1)
          (((t0.synchronize_time now).game (m.board - 1)).board) target).1 = true := by
        rw [← hbr]; exact htrue
      obtain ⟨nb, hempty, hspob, hdec, heq⟩ := TandemGame.dropMove_true_dec
        (t0.synchronize_time now) m (m.board - 1)
        (((t0.synchronize_time now).game (m.board - 1)).board) target c0 c1 c p
        hlist hcc hcp htrue'
      rw [ChessGame.decrease_count_zero ((t0.synchronize_time now).game (m.board - 1))
        c p iSlot hslot (by rw [invOf_sync, hz])] at hdec
      exact Bool.noConfusion hdec
    refine ⟨hfalse, fun k col => ?_⟩
    rw [TandemGame.move_piece_false t0 now m hfalse, invOf_sync]

/-- Claim C4 witness: the accepted rook drop on `fState` removes exactly the
one White rook spare; the same drop on `zState` (empty inventory) is
rejected with all inventories unchanged. -/
theorem claim_C4_witness :
    ((fState.move_piece 0 fMove).1 = true ∧
      invOf ((fState.move_piece 0 fMove).2.game 0) Color.White =
        listDec (invOf (fState.game 0) Color.White) 1) ∧
    ((zState.move_piece 0 fMove).1 = false ∧
      invOf ((zState.move_piece 0 fMove).2.game 0) Color.White =
        invOf (zState.game 0) Color.White) := by
  have htrue : (fState.move_piece 0 fMove).1 = true := by decide
  have h1 := (claim_C4 fState 0 fMove ⟨0, 7⟩ 'w' 'R' .White .Rook 1
    (Or.inl rfl) rfl (by decide) rfl rfl rfl (by decide)).1 htrue
  have h2 := (claim_C4 zState 0 fMove ⟨0, 7⟩ 'w' 'R' .White .Rook 1
    (Or.inl rfl) rfl (by decide) rfl rfl rfl (by decide)).2 (by decide)
  exact ⟨⟨htrue, h1.1⟩, h2.1, h2.2 0 Color.White⟩

/-- Two distinct colors are each other's flip. -/
theorem Color.eq_flip_of_ne (c d : Color) (h : c ≠ d) : d = c.flip := by
  cases c <;> cases d <;> simp_all [Color.flip]

/-- Claim C10: the drop branch takes the dropped piece's color from the
piece field's first character and never compares it with the frame's color
field — when the frame's color matches the side to move but the piece field
names the opposite color, the drop is not rejected for that mismatch: the
opposite-colored piece is placed (the committed board is the one built with
the parsed color) and the spare is deducted from the opposite color's
inventory, while the frame color's own inventory on that board is
untouched. -/
theorem claim_C10 (t0 : TandemGame) (now : Int) (m : TandemMove) (target : Square)
    (c0 c1 : Char) (c : Color) (p : Piece) (iSlot : Nat) (nb : Board)
    (hb : m.board = 1 ∨ m.board = 2)
    (hsrc : m.source = "spare")
    (hlist : m.piece.toList = [c0, c1])
    (hcc : charColor c0 = some c)
    (hcp : charPiece c1 = some p)
    (hslot : slotIdx p = some iSlot)
    (htgt : Square.fromString m.target = some target)
    (hmismatch : c ≠ m.color)
    (hfin : (t0.synchronize_time now).finished = false)
    (hside : ((t0.game (m.board - 1)).board).side_to_move = m.color)
    (hempty : ((t0.game (m.board - 1)).board).piece_on target = none)
    (hpawn : ¬(p = Piece.Pawn ∧ (target.rank = 0 ∨ target.rank = 7)))
    (hspob : set_piece_on_board ((t0.game (m.board - 1)).board) p c target = some nb)
    (hinv : 0 < (invOf (t0.game (m.board - 1)) c).getD iSlot 0) :
    (t0.move_piece now m).1 = true ∧
    ((t0.move_piece now m).2.game (m.board - 1)).board = nb ∧
    invOf ((t0.move_piece now m).2.game (m.board - 1)) c =
      listDec (invOf (t0.game (m.board - 1)) c) iSlot ∧
    invOf ((t0.move_piece now m).2.game (m.board - 1)) m.color =
      invOf (t0.game (m.board - 1)) m.color := by
  have hb0 : m.board ≠ 0 := by rcases hb with h | h <;> simp [h]
  have hboard : (((t0.synchronize_time now).game (m.board - 1)).board) =
      ((t0.game (m.board - 1)).board) :=
    (TandemGame.sync_game_fields t0 now (m.board - 1)).1
  have hrun := TandemGame.move_piece_run t0 now m target hb0 hfin
    (by rw [hboard]; exact hside) htgt
    (by rw [hboard, hempty]; simp)
  rw [if_pos hsrc] at hrun
  have hdec : (((t0.synchronize_time now).game (m.board - 1)).decrease_count c p).1 = true :=
    (ChessGame.decrease_count_pos _ c p iSlot hslot (by rw [invOf_sync]; exact hinv)).1
  have hdrop : ((t0.synchronize_time now).dropMove m (m.board - 1)
      (((t0.synchronize_time now).game (m.board - 1)).board) target).1 = true := by
    apply TandemGame.dropMove_true_of (t0.synchronize_time now) m (m.board - 1) _ target
      c0 c1 c p nb hlist hcc hcp (by rw [hboard]; exact hempty) hpawn
      (by rw [hboard]; exact hspob) hdec
  have htrue : (t0.move_piece now m).1 = true := by rw [hrun]; exact hdrop
  obtain ⟨tg, htg, _, _, _, _, hbr⟩ := TandemGame.move_piece_true_branch t0 now m htrue
  rw [htgt] at htg
  injection htg with htg'
  subst htg'
  rw [if_pos hsrc] at hbr
  obtain ⟨nb', hempty', hspob', hdec', heq⟩ := TandemGame.dropMove_true_dec
    (t0.synchronize_time now) m (m.board - 1)
    (((t0.synchronize_time now).game (m.board - 1)).board) target c0 c1 c p
    hlist hcc hcp (by rw [← hbr]; exact htrue)
  have hnb : nb' = nb := by
    rw [hboard, hspob] at hspob'
    injection hspob' with h
    exact h.symm
  rw [hnb] at heq
  have hio : (m.board - 1) = 0 ∧ (m.board - 1 + 1) % 2 = 1 ∨
      (m.board - 1) = 1 ∧ (m.board - 1 + 1) % 2 = 0 := by
    rcases hb with h | h <;> simp [h]
  have hspec := ChessGame.decrease_count_pos ((t0.synchronize_time now).game (m.board - 1))
    c p iSlot hslot (by rw [invOf_sync]; exact hinv)
  have hcs := TandemGame.dropCommit_spec (t0.synchronize_time now) m (m.board - 1)
    ((m.board - 1 + 1) % 2) nb
    (((t0.synchronize_time now).game (m.board - 1)).decrease_count c p).2 hio
  have hres : (t0.move_piece now m).2 =
      ((t0.synchronize_time now).dropCommit m (m.board - 1) nb
        (((t0.synchronize_time now).game (m.board - 1)).decrease_count c p).2).2 := by
    rw [hbr, heq]
  have hcinv : ∀ col, invOf ((t0.move_piece now m).2.game (m.board - 1)) col =
      invOf (((t0.synchronize_time now).game (m.board - 1)).decrease_count c p).2 col := by
    intro col
    rw [hres]
    cases col
    · exact hcs.2.2.1
    · exact hcs.2.2.2.1
  refine ⟨htrue, ?_, ?_, ?_⟩
  · rw [hres]; exact hcs.2.1
  · rw [hcinv c, hspec.2.1, invOf_sync]
  · rw [Color.eq_flip_of_ne c m.color hmismatch, hcinv c.flip, hspec.2.2.1, invOf_sync]

/-- Claim C10 witness: the frame `1;W;spare;a3;bN;` with White to move is
accepted — the Black knight is placed and the Black spare (not White's) is
deducted. -/
theorem claim_C10_witness :
    (wState.move_piece 0 wMove).1 = true ∧
    ((wState.move_piece 0 wMove).2.game 0).board = wAfter ∧
    invOf ((wState.move_piece 0 wMove).2.game 0) Color.Black =
      listDec (invOf (wState.game 0) Color.Black) 3 ∧
    invOf ((wState.move_piece 0 wMove).2.game 0) Color.White =
      invOf (wState.game 0) Color.White := by
  exact claim_C10 wState 0 wMove ⟨0, 2⟩ 'b' 'N' .Black .Knight 3 wAfter
    (Or.inl rfl) rfl (by decide) rfl rfl rfl (by decide) (by decide) (by decide)
    (by decide) (by decide) (by decide) rfl (by decide)

/-- A drop whose placement the variant refuses is rejected by `move_piece`
(whatever the other guards do). -/
theorem TandemGame.move_piece_drop_reject (t0 : TandemGame) (now : Int) (m : TandemMove)
    (target : Square) (c0 c1 : Char) (c : Color) (p : Piece)
    (hsrc : m.source = "spare")
    (hlist : m.piece.toList = [c0, c1])
    (hcc : charColor c0 = some c)
    (hcp : charPiece c1 = some p)
    (htgt : Square.fromString m.target = some target)
    (hnone : set_piece_on_board ((t0.game (m.board - 1)).board) p c target = none) :
    (t0.move_piece now m).1 = false := by
  by_contra hne
  have htrue : (t0.move_piece now m).1 = true := by
    revert hne; cases (t0.move_piece now m).1 <;> simp
  obtain ⟨tg, htg, _, _, _, _, hbr⟩ := TandemGame.move_piece_true_branch t0 now m htrue
  rw [htgt] at htg
  injection htg with htg'
  subst htg'
  rw [if_pos hsrc] at hbr
  obtain ⟨nb', hempty', hspob', _, _⟩ := TandemGame.dropMove_true_dec
    (t0.synchronize_time now) m (m.board - 1)
    (((t0.synchronize_time now).game (m.board - 1)).board) target c0 c1 c p
    hlist hcc hcp (by rw [← hbr]; exact htrue)
  rw [(TandemGame.sync_game_fields t0 now (m.board - 1)).1, hnone] at hspob'
  exact Option.noConfusion hspob'

/-- Claim C1: the anti-contact-drop-mate rule of the drop branch — a
dropped Knight whose placement yields an oracle checkmate is rejected at
any range; a dropped piece whose placement yields a checkmate with the
landing square Chebyshev-adjacent to the enemy king is rejected; and a
dropped non-Knight yielding a long-range (non-adjacent) checkmate is
accepted when the drop is otherwise legal (game not finished, side to move
matches, target empty, pawn-rank guard clear, placement accepted by the
oracle, spare available). -/
theorem claim_C1 (t0 : TandemGame) (now : Int) (m : TandemMove) (target : Square)
    (c0 c1 : Char) (c : Color) (p : Piece) (iSlot : Nat) (nb : Board)
    (hb : m.board = 1 ∨ m.board = 2)
    (hsrc : m.source = "spare")
    (hlist : m.piece.toList = [c0, c1])
    (hcc : charColor c0 = some c)
    (hcp : charPiece c1 = some p)
    (hslot : slotIdx p = some iSlot)
    (htgt : Square.fromString m.target = some target)
    (hpl : ((t0.game (m.board - 1)).board).placePiece p c target = some nb)
    (hmate : nb.status = BoardStatus.Checkmate) :
    (p = Piece.Knight → (t0.move_piece now m).1 = false) ∧
    (chebAdj (nb.king_square c.flip) target → (t0.move_piece now m).1 = false) ∧
    (p ≠ Piece.Knight → ¬ chebAdj (nb.king_square c.flip) target →
      (t0.synchronize_time now).finished = false →
      ((t0.game (m.board - 1)).board).side_to_move = m.color →
      ((t0.game (m.board - 1)).board).piece_on target = none →
      ¬(p = Piece.Pawn ∧ (target.rank = 0 ∨ target.rank = 7)) →
      0 < (invOf (t0.game (m.board - 1)) c).getD iSlot 0 →
      (t0.move_piece now m).1 = true) := by
  have hb0 : m.board ≠ 0 := by rcases hb with h | h <;> simp [h]
  have hboard : (((t0.synchronize_time now).game (m.board - 1)).board) =
      ((t0.game (m.board - 1)).board) :=
    (TandemGame.sync_game_fields t0 now (m.board - 1)).1
  refine ⟨?_, ?_, ?_⟩
  · intro hk
    subst hk
    exact TandemGame.move_piece_drop_reject t0 now m target c0 c1 c Piece.Knight
      hsrc hlist hcc hcp htgt
      (set_piece_on_board_none_of_mate _ _ _ _ nb hpl (is_mate_knight nb target c hmate))
  · intro hclose
    exact TandemGame.move_piece_drop_reject t0 now m target c0 c1 c p
      hsrc hlist hcc hcp htgt
      (set_piece_on_board_none_of_mate _ _ _ _ nb hpl (is_mate_close nb p target c hmate hclose))
  · intro hp hfar hfin hside hempty hpawn hinv
    have hm : is_mate nb p target c = false := is_mate_far nb p target c hp hfar
    have hguard : ¬(((target.rank : Int) = 7 ∨ (target.rank : Int) = 0) ∧ p = Piece.Pawn) := by
      rintro ⟨hr, hpp⟩
      refine hpawn ⟨hpp, ?_⟩
      rcases hr with h | h
      · right; omega
      · left; omega
    have hspob := set_piece_on_board_some ((t0.game (m.board - 1)).board) p c target nb
      hguard hpl hm
    have hrun := TandemGame.move_piece_run t0 now m target hb0 hfin
      (by rw [hboard]; exact hside) htgt
      (by rw [hboard, hempty]; simp)
    rw [if_pos hsrc] at hrun
    have hdec : (((t0.synchronize_time now).game (m.board - 1)).decrease_count c p).1 = true :=
      (ChessGame.decrease_count_pos _ c p iSlot hslot (by rw [invOf_sync]; exact hinv)).1
    have hdrop := TandemGame.dropMove_true_of (t0.synchronize_time now) m (m.board - 1)
      (((t0.synchronize_time now).game (m.board - 1)).board) target c0 c1 c p nb
      hlist hcc hcp (by rw [hboard]; exact hempty) hpawn
      (by rw [hboard]; exact hspob) hdec
    rw [hrun]
    exact hdrop

/-- Claim C1 witness: the three boundary scenarios realized — a long-range
knight-drop mate rejected (`kState`), a contact rook-drop mate rejected
(`cState`), and a long-range back-rank rook-drop mate accepted (`fState`). -/
theorem claim_C1_witness :
    (kState.move_piece 0 kMove).1 = false ∧
    (cState.move_piece 0 cMove).1 = false ∧
    (fState.move_piece 0 fMove).1 = true := by
  refine ⟨?_, ?_, ?_⟩
  · exact (claim_C1 kState 0 kMove ⟨7, 2⟩ 'w' 'N' .White .Knight 3 kMate
      (Or.inl rfl) rfl (by decide) rfl rfl rfl (by decide) rfl rfl).1 rfl
  · exact (claim_C1 cState 0 cMove ⟨6, 6⟩ 'w' 'R' .White .Rook 1 cMate
      (Or.inl rfl) rfl (by decide) rfl rfl rfl (by decide) rfl rfl).2.1 (by decide)
  · exact (claim_C1 fState 0 fMove ⟨0, 7⟩ 'w' 'R' .White .Rook 1 fMate
      (Or.inl rfl) rfl (by decide) rfl rfl rfl (by decide) rfl rfl).2.2
      (by decide) (by decide) (by decide) (by decide) (by decide) (by decide) (by decide)
